import Mathlib

set_option maxRecDepth 100000

/-!
Verification of the document-storage handlers of the aye-ai-legal-assistant
repository (`backend/handler/document_storage.py`,
`document_storage_efs.py`, `document_storage_mongodb.py`).

Strings are modelled as `List Char` (Python `str`), byte strings as
`List Nat` (each entry < 256).  Nondeterministic environment inputs of the
handlers (the freshly generated uuid, the current time, injected faults of
the backing store) are passed as explicit arguments.  Python exceptions are
modelled with `Except`; since an exception leaves already-performed state
mutations in place, the stateful operations return the post-state together
with the `Except` result.
-/

namespace LegalDoc

/-- Byte length of one character under UTF-8 encoding. -/
def utf8CharLen (c : Char) : Nat :=
  if c.toNat < 0x80 then 1
  else if c.toNat < 0x800 then 2
  else if c.toNat < 0x10000 then 3
  else 4

/-- Byte length of a Python `str` under UTF-8 encoding (`len(s.encode('utf-8'))`). -/
def utf8Len (s : List Char) : Nat := (s.map utf8CharLen).sum

/-- UTF-8 encoding of one character, as a list of bytes. -/
def utf8EncodeChar (c : Char) : List Nat :=
  let n := c.toNat
  if n < 0x80 then [n]
  else if n < 0x800 then
    [0xC0 + n / 64, 0x80 + n % 64]
  else if n < 0x10000 then
    [0xE0 + n / 4096, 0x80 + n / 64 % 64, 0x80 + n % 64]
  else
    [0xF0 + n / 262144, 0x80 + n / 4096 % 64, 0x80 + n / 64 % 64, 0x80 + n % 64]

/-- UTF-8 encoding of a Python `str` (`s.encode('utf-8')`). -/
def utf8Encode (s : List Char) : List Nat := s.flatMap utf8EncodeChar

/-- Is `b` a UTF-8 continuation byte (`0x80..0xBF`)? -/
def isCont (b : Nat) : Bool := 0x80 ≤ b && b < 0xC0

/-- One step of UTF-8 decoding: the state is `none` between characters and
`some (acc, needed)` in the middle of a multi-byte character whose partial
code point is `acc` with `needed` continuation bytes outstanding. -/
def utf8DecodeAux : Option (Nat × Nat) → List Nat → Option (List Char)
  | none, [] => some []
  | some _, [] => none
  | none, b :: rest =>
    if b < 0x80 then (utf8DecodeAux none rest).map (Char.ofNat b :: ·)
    else if b < 0xC0 then none
    else if b < 0xE0 then utf8DecodeAux (some (b - 0xC0, 1)) rest
    else if b < 0xF0 then utf8DecodeAux (some (b - 0xE0, 2)) rest
    else if b < 0xF8 then utf8DecodeAux (some (b - 0xF0, 3)) rest
    else none
  | some (acc, needed), b :: rest =>
    if isCont b then
      if needed = 1 then
        (utf8DecodeAux none rest).map (Char.ofNat (acc * 64 + (b - 0x80)) :: ·)
      else utf8DecodeAux (some (acc * 64 + (b - 0x80), needed - 1)) rest
    else none

/-- UTF-8 decoding of a byte string (`bytes.decode('utf-8')`); `none` models
`UnicodeDecodeError`. -/
def utf8Decode? (bs : List Nat) : Option (List Char) := utf8DecodeAux none bs

/-- Decimal rendering of a natural number (Python `str(n)` / `f"{n}"`). -/
def natToChars (n : Nat) : List Char := (Nat.repr n).data

/-- Index of a character in the standard base64 alphabet. -/
def b64Idx? (c : Char) : Option Nat :=
  if 'A' ≤ c ∧ c ≤ 'Z' then some (c.toNat - 'A'.toNat)
  else if 'a' ≤ c ∧ c ≤ 'z' then some (26 + (c.toNat - 'a'.toNat))
  else if '0' ≤ c ∧ c ≤ '9' then some (52 + (c.toNat - '0'.toNat))
  else if c = '+' then some 62
  else if c = '/' then some 63
  else none

def isB64Char (c : Char) : Bool := (b64Idx? c).isSome

/-- Decode a list of base64 sextet values into bytes; a trailing group of two
sextets yields one byte and a trailing group of three yields two (the shapes
that proper `=` padding produces). -/
def b64Bytes : List Nat → List Nat
  | a :: b :: c :: d :: rest =>
    (a * 4 + b / 16) :: (b % 16 * 16 + c / 4) :: (c % 4 * 64 + d) :: b64Bytes rest
  | [a, b] => [a * 4 + b / 16]
  | [a, b, c] => [a * 4 + b / 16, b % 16 * 16 + c / 4]
  | _ => []

/-- Model of Python `base64.b64decode(s)` with its default lenient validation:
characters outside the base64 alphabet and `=` are discarded, the remaining
length must be a multiple of four counting padding, and the number of data
characters must not be congruent to 1 modulo 4; `none` models `binascii.Error`.
-/
def pyB64Decode? (s : List Char) : Option (List Nat) :=
  let kept := s.filter (fun c => isB64Char c || c = '=')
  let data := kept.takeWhile (fun c => c ≠ '=')
  if kept.length % 4 = 0 ∧ data.length % 4 ≠ 1 then
    some (b64Bytes (data.filterMap b64Idx?))
  else none

/-- One entry of the `parameters` list of the inbound event: a `{name, value}`
pair. -/
structure Param where
  name : List Char
  value : List Char
deriving DecidableEq, Repr

/-- The parameter-extraction loop shared by all handlers: each variable starts
as `None` and is overwritten by every parameter whose `name` matches, so the
last occurrence wins. -/
def getParam (ps : List Param) (key : List Char) : Option (List Char) :=
  ps.foldl (fun acc p => if p.name = key then some p.value else acc) none

/-- Python truthiness of an optional string: `None` and `""` are falsy
(`if not documentName`). -/
def truthy : Option (List Char) → Bool
  | none => false
  | some s => !s.isEmpty

/-- `val or default` on an optional string (also replaces the empty string). -/
def orDefault (v : Option (List Char)) (d : List Char) : List Char :=
  if truthy v then v.getD [] else d

/-- Python exception values: `ValueError(msg)` or a generic `Exception(msg)`.
`str(e)` is the carried message. -/
inductive PyErr where
  | valueError (msg : List Char)
  | exception (msg : List Char)
deriving DecidableEq, Repr

/-- `str(e)` of a modelled exception. -/
def PyErr.msg : PyErr → List Char
  | .valueError m => m
  | .exception m => m

/-- The success response envelope built by `create_response`: the nested
dictionary `{'response': {'actionGroup': …, 'function': …,
'functionResponse': {'responseBody': {'TEXT': {'body': …}}}},
'messageVersion': …}`, flattened to its four data fields. -/
structure Envelope where
  actionGroup : List Char
  function : List Char
  body : List Char
  messageVersion : List Char
deriving DecidableEq, Repr

/-- `create_response(action_group, function, message_version, response_body)`. -/
def create_response (ag fn mv body : List Char) : Envelope :=
  ⟨ag, fn, body, mv⟩

/-- Result of a `lambda_handler` call: either the success envelope or the bare
`{'statusCode': …, 'body': …}` error pair. -/
inductive HandlerResult where
  | envelope (e : Envelope)
  | httpError (statusCode : Nat) (body : List Char)
deriving DecidableEq, Repr

/-- The literal truncation marker appended by the inline backend. -/
def truncMarker : List Char :=
  "\n\n[CONTENT TRUNCATED - Document exceeds DynamoDB size limit]".data

/-- The top-level `except Exception` clause shared by all three
`lambda_handler`s: a successful dispatch becomes the envelope, an exception
becomes the bare `{'statusCode': 500, 'body': 'Internal Server Error: …'}`
pair. -/
def wrapRun {α : Type} (run : α × Except PyErr Envelope) : α × HandlerResult :=
  match run with
  | (st, .ok e) => (st, .envelope e)
  | (st, .error e) =>
    (st, .httpError 500 ("Internal Server Error: ".data ++ e.msg))

end LegalDoc

namespace DocInline
open LegalDoc

/-- A record of the `legal_documents` DynamoDB table as written by
`document_storage.py` (`document_item` in `save_document`). -/
structure DocItem where
  documentId : List Char
  documentName : List Char
  documentContent : List Char
  documentType : List Char
  uploadDate : List Char
  lastModified : List Char
  analysisResults : List Char
  status : List Char
  contentSize : Nat
deriving DecidableEq, Repr

/-- The DynamoDB table state: its items, in scan order. -/
structure DynamoState where
  items : List DocItem
deriving DecidableEq, Repr

/-- `documents_table.put_item(Item=it)`: keyed write, replacing any item with
the same `documentId`. -/
def putItem (st : DynamoState) (it : DocItem) : DynamoState :=
  ⟨st.items.filter (fun d => d.documentId ≠ it.documentId) ++ [it]⟩

/-- `documents_table.get_item(Key={'documentId': id})`. -/
def getItem (st : DynamoState) (id : List Char) : Option DocItem :=
  st.items.find? (fun d => d.documentId = id)

/-- `save_document` of the inline backend.  `document_id` and `current_time`
are the values produced by `uuid.uuid4()` and `datetime.utcnow().isoformat()`.
Returns the post-state and the result. -/
def save_document (st : DynamoState) (ag fn mv : List Char) (params : List Param)
    (document_id current_time : List Char) :
    DynamoState × Except PyErr Envelope :=
  let documentName := getParam params "documentName".data
  let documentContent := getParam params "documentContent".data
  let analysisResults := getParam params "analysisResults".data
  let documentType := getParam params "documentType".data
  if !truthy documentName then
    (st, .error (.valueError "Document name is required".data))
  else if !truthy documentContent then
    (st, .error (.valueError "Document content is required".data))
  else
    let content := documentContent.getD []
    let content_size := utf8Len content
    let max_size := 350000
    let content :=
      if content_size > max_size then content.take max_size ++ truncMarker
      else content
    let document_item : DocItem :=
      { documentId := document_id
        documentName := documentName.getD []
        documentContent := content
        documentType := orDefault documentType "legal_document".data
        uploadDate := current_time
        lastModified := current_time
        analysisResults := orDefault analysisResults "No analysis performed".data
        status := "active".data
        contentSize := content_size }
    (putItem st document_item,
      .ok (create_response ag fn mv
        ("Document \"".data ++ documentName.getD [] ++
         "\" saved successfully with ID: ".data ++ document_id)))

/-- The content preview shown by the inline `get_document`:
`document['documentContent'][:200]` plus the conditional ellipsis. -/
def contentPreview (d : DocItem) : List Char :=
  d.documentContent.take 200 ++
    (if d.documentContent.length > 200 then "...".data else [])

/-- The body text of a found document (`Document Found: …`). -/
def foundBody (d : DocItem) : List Char :=
  "Document Found:\nName: ".data ++ d.documentName ++
  "\nType: ".data ++ d.documentType ++
  "\nUpload Date: ".data ++ d.uploadDate ++
  "\nAnalysis: ".data ++ d.analysisResults ++
  "\nContent: ".data ++ contentPreview d

/-- `get_document` of the inline backend. -/
def get_document (st : DynamoState) (ag fn mv : List Char) (params : List Param) :
    DynamoState × Except PyErr Envelope :=
  let document_id := getParam params "documentId".data
  if !truthy document_id then
    (st, .error (.valueError "Document ID is required".data))
  else
    let id := document_id.getD []
    match getItem st id with
    | none =>
      (st, .ok (create_response ag fn mv
        ("Document with ID ".data ++ id ++ " not found".data)))
    | some document =>
      (st, .ok (create_response ag fn mv (foundBody document)))

/-- The filtered document list of the inline `list_documents`: the full table
scan, narrowed by `documentType` when the filter parameter is truthy.  Note:
no `status` filter is applied by this backend. -/
def filteredDocs (st : DynamoState) (document_type : Option (List Char)) :
    List DocItem :=
  if truthy document_type then
    st.items.filter (fun d => d.documentType = document_type.getD [])
  else st.items

/-- One display line of the inline listing (the source file's bullet literal
is the mojibake sequence `â€¢`). -/
def listLine (d : DocItem) : List Char :=
  "â€¢ ".data ++ d.documentName ++ " (".data ++ d.documentType ++ ") - ".data ++
    d.uploadDate.take 10

/-- `list_documents` of the inline backend. -/
def list_documents (st : DynamoState) (ag fn mv : List Char)
    (params : List Param) : DynamoState × Except PyErr Envelope :=
  let document_type := getParam params "documentType".data
  let documents := filteredDocs st document_type
  if documents.isEmpty then
    (st, .ok (create_response ag fn mv
      "No documents found matching the criteria".data))
  else
    (st, .ok (create_response ag fn mv
      ("Found ".data ++ natToChars documents.length ++ " document(s):\n".data ++
        (List.intersperse "\n".data ((documents.take 10).map listLine)).flatten)))

/-- The inbound event of `lambda_handler` (fields `actionGroup`, `function`,
`messageVersion`, `parameters`). -/
structure Event where
  actionGroup : List Char
  function : List Char
  messageVersion : List Char
  parameters : List Param
deriving DecidableEq, Repr

/-- `lambda_handler` of the inline backend: dispatch plus the top-level
`except` clause turning any exception into a bare 500 response. -/
def lambda_handler (st : DynamoState) (ev : Event)
    (document_id current_time : List Char) : DynamoState × HandlerResult :=
  let run : DynamoState × Except PyErr Envelope :=
    if ev.function = "saveDocument".data then
      save_document st ev.actionGroup ev.function ev.messageVersion
        ev.parameters document_id current_time
    else if ev.function = "getDocument".data then
      get_document st ev.actionGroup ev.function ev.messageVersion ev.parameters
    else if ev.function = "listDocuments".data then
      list_documents st ev.actionGroup ev.function ev.messageVersion ev.parameters
    else
      (st, .error (.valueError ("Unknown function: ".data ++ ev.function)))
  wrapRun run

end DocInline

namespace DocEfs
open LegalDoc

/-- `pathlib.PurePosixPath`: an absolute flag plus the component list.  As in
`pathlib`, empty components and `"."` are dropped by parsing while `".."` is
kept. -/
structure PPath where
  absolute : Bool
  comps : List (List Char)
deriving DecidableEq, Repr

/-- Split a string at every `'/'`. -/
def splitOnSlash : List Char → List (List Char)
  | [] => [[]]
  | c :: rest =>
    match splitOnSlash rest with
    | [] => if c = '/' then [[], []] else [[c]]
    | h :: t => if c = '/' then [] :: h :: t else (c :: h) :: t

/-- Parse a string into a `PPath` (the `PurePosixPath` constructor). -/
def parsePath (s : List Char) : PPath :=
  ⟨s.head? = some '/',
    (splitOnSlash s).filter (fun c => c ≠ [] ∧ c ≠ ".".data)⟩

/-- `p / q` on paths: an absolute right operand replaces the left one. -/
def PPath.join (p q : PPath) : PPath :=
  if q.absolute then q else ⟨p.absolute, p.comps ++ q.comps⟩

/-- `p / s` where `s` is a string. -/
def PPath.joinStr (p : PPath) (s : List Char) : PPath :=
  p.join (parsePath s)

/-- `str(p)`. -/
def renderPath (p : PPath) : List Char :=
  (if p.absolute then "/".data else []) ++
    (List.intersperse "/".data p.comps).flatten

/-- Filesystem-level resolution of `".."` components (performed by the OS when
a path is opened, not by `pathlib`). -/
def resolveComps (cs : List (List Char)) : List (List Char) :=
  cs.foldl (fun acc c => if c = "..".data then acc.dropLast else acc ++ [c]) []

/-- Contents of a file on EFS: text written through the UTF-8 text branch, or
raw bytes written through the binary (base64) branch. -/
inductive FileData where
  | text (s : List Char)
  | binary (bs : List Nat)
deriving DecidableEq, Repr

/-- Byte size of a stored file (`os.path.getsize`). -/
def fileDataSize : FileData → Nat
  | .text s => utf8Len s
  | .binary bs => bs.length

/-- The state of the mounted filesystem: existing directories and files, both
keyed by resolved absolute component lists. -/
structure FsState where
  dirs : List (List (List Char))
  files : List (List (List Char) × FileData)
deriving DecidableEq, Repr

/-- `Path.mkdir(parents=True, exist_ok=True)`: create the directory and every
missing ancestor. -/
def FsState.mkdirParents (st : FsState) (d : List (List Char)) : FsState :=
  ⟨(List.range d.length).foldl
      (fun ds i => if d.take (i + 1) ∈ ds then ds else ds ++ [d.take (i + 1)])
      st.dirs,
    st.files⟩

/-- Contents of the file at a resolved path, if one exists. -/
def FsState.fileAt (st : FsState) (p : List (List Char)) : Option FileData :=
  (st.files.find? (fun f => f.1 = p)).map (fun f => f.2)

/-- Whether `open(p, 'w')` succeeds: the parent directory exists and `p` is
not itself a directory. -/
def FsState.canOpenWrite (st : FsState) (p : List (List Char)) : Bool :=
  p ≠ [] && p.dropLast ∈ st.dirs && p ∉ st.dirs

/-- Write (or overwrite) the file at a resolved path. -/
def FsState.writeFile (st : FsState) (p : List (List Char)) (d : FileData) :
    FsState :=
  ⟨st.dirs, st.files.filter (fun f => f.1 ≠ p) ++ [(p, d)]⟩

/-- `Path.unlink()`. -/
def FsState.removeFile (st : FsState) (p : List (List Char)) : FsState :=
  ⟨st.dirs, st.files.filter (fun f => f.1 ≠ p)⟩

/-- Is the directory empty (`not any(document_dir.iterdir())`)? -/
def FsState.dirEmpty (st : FsState) (d : List (List Char)) : Bool :=
  st.files.all (fun f => !(d.isPrefixOf f.1)) &&
    st.dirs.all (fun d' => d' = d || !(d.isPrefixOf d'))

/-- `Path.rmdir()`. -/
def FsState.removeDir (st : FsState) (d : List (List Char)) : FsState :=
  ⟨st.dirs.filter (fun d' => d' ≠ d), st.files⟩

/-- `EFS_MOUNT_PATH = "/mnt/efs/legal-documents"`. -/
def EFS_MOUNT_PATH : List Char := "/mnt/efs/legal-documents".data

def mountPath : PPath := parsePath EFS_MOUNT_PATH

/-- A record of the metadata table written by `document_storage_efs.py`. -/
structure EfsItem where
  documentId : List Char
  documentName : List Char
  documentType : List Char
  filePath : List Char
  uploadDate : List Char
  lastModified : List Char
  analysisResults : List Char
  status : List Char
  fileSize : Nat
deriving DecidableEq, Repr

/-- The metadata (DynamoDB) table state of the filesystem backend. -/
structure MetaState where
  items : List EfsItem
deriving DecidableEq, Repr

def putItem (st : MetaState) (it : EfsItem) : MetaState :=
  ⟨st.items.filter (fun d => d.documentId ≠ it.documentId) ++ [it]⟩

def getItem (st : MetaState) (id : List Char) : Option EfsItem :=
  st.items.find? (fun d => d.documentId = id)

/-- Message text of an OS-level write failure (environment specific; only its
presence matters). -/
def osErrMsg : List Char := "<oserror>".data

/-- Message text of a failed DynamoDB `put_item` (environment specific). -/
def putItemErrMsg : List Char := "<put_item failed>".data

/-- The `except` clause of the filesystem `save_document`: unlink the file if
it exists, remove the per-document directory if it is empty. -/
def cleanup (fs : FsState) (target docDir : List (List Char)) : FsState :=
  let fs := if (fs.fileAt target).isSome then fs.removeFile target else fs
  if docDir ∈ fs.dirs ∧ fs.dirEmpty docDir then fs.removeDir docDir else fs

/-- `save_document` of the filesystem backend.  `metaFails` injects a failure
of the DynamoDB `put_item` call (the metadata write). -/
def save_document (meta : MetaState) (fs : FsState) (ag fn mv : List Char)
    (params : List Param) (document_id current_time : List Char)
    (metaFails : Bool) : (MetaState × FsState) × Except PyErr Envelope :=
  let documentName := getParam params "documentName".data
  let documentContent := getParam params "documentContent".data
  let analysisResults := getParam params "analysisResults".data
  let documentType := getParam params "documentType".data
  if !truthy documentName || !truthy documentContent then
    ((meta, fs),
      .error (.valueError "Document name and content are required".data))
  else
    let name := documentName.getD []
    let content := documentContent.getD []
    let document_dir := mountPath.joinStr document_id
    let dirComps := resolveComps document_dir.comps
    let fs := fs.mkdirParents dirComps
    let file_path := document_dir.joinStr name
    let target := resolveComps file_path.comps
    if !fs.canOpenWrite target then
      ((meta, cleanup fs target dirComps),
        .error (.exception ("Error saving document: ".data ++ osErrMsg)))
    else
      let file_data : FileData :=
        match pyB64Decode? content with
        | some bs => .binary bs
        | none => .text content
      let fs := fs.writeFile target file_data
      let file_size := fileDataSize file_data
      if metaFails then
        ((meta, cleanup fs target dirComps),
          .error (.exception ("Error saving document: ".data ++ putItemErrMsg)))
      else
        let document_item : EfsItem :=
          { documentId := document_id
            documentName := name
            documentType := orDefault documentType "legal_document".data
            filePath := renderPath file_path
            uploadDate := current_time
            lastModified := current_time
            analysisResults := orDefault analysisResults
              "No analysis performed".data
            status := "active".data
            fileSize := file_size }
        ((putItem meta document_item, fs),
          .ok (create_response ag fn mv
            ("Document \"".data ++ name ++
             "\" saved successfully with ID: ".data ++ document_id)))

/-- Render `n / (1024*1024)` with two decimals (`f"{…:.2f}"`), modelling the
float formatting arithmetically with round-half-up. -/
def mbRender (n : Nat) : List Char :=
  let cents := (n * 100 + 524288) / 1048576
  natToChars (cents / 100) ++ ".".data ++
    (if cents % 100 < 10 then '0' :: natToChars (cents % 100)
     else natToChars (cents % 100))

/-- The content preview of the filesystem `get_document`: read up to 200
characters from the file in UTF-8 text mode, degrading to the binary marker
when decoding fails. -/
def filePreview : FileData → List Char
  | .text s => s.take 200
  | .binary bs =>
    match utf8Decode? bs with
    | some cs => cs.take 200
    | none => "[Binary file - cannot preview]".data

/-- The body text of a found document with an existing file. -/
def foundBody (d : EfsItem) (data : FileData) : List Char :=
  "Document Found:\nName: ".data ++ d.documentName ++
  "\nType: ".data ++ d.documentType ++
  "\nUpload Date: ".data ++ d.uploadDate.take 10 ++
  "\nFile Size: ".data ++ mbRender d.fileSize ++
  " MB\nFile Path: ".data ++ d.filePath ++
  "\nAnalysis: ".data ++ d.analysisResults ++
  "\nContent Preview: ".data ++ filePreview data ++
  (if d.fileSize > 200 then "...".data else [])

/-- `get_document` of the filesystem backend. -/
def get_document (meta : MetaState) (fs : FsState) (ag fn mv : List Char)
    (params : List Param) : Except PyErr Envelope :=
  let document_id := getParam params "documentId".data
  if !truthy document_id then
    .error (.valueError "Document ID is required".data)
  else
    let id := document_id.getD []
    match getItem meta id with
    | none =>
      .ok (create_response ag fn mv
        ("Document with ID ".data ++ id ++ " not found".data))
    | some document =>
      let file_path := parsePath document.filePath
      match fs.fileAt (resolveComps file_path.comps) with
      | none =>
        .ok (create_response ag fn mv
          ("Document metadata found but file missing at ".data ++
            renderPath file_path))
      | some data =>
        .ok (create_response ag fn mv (foundBody document data))

/-- The filtered records of the filesystem `list_documents`: the DynamoDB scan
restricted by `#status = 'active'` and, when the parameter is truthy, by
`documentType`. -/
def filteredDocs (meta : MetaState) (document_type : Option (List Char)) :
    List EfsItem :=
  if truthy document_type then
    meta.items.filter (fun d =>
      d.documentType = document_type.getD [] ∧ d.status = "active".data)
  else
    meta.items.filter (fun d => d.status = "active".data)

/-- One display line of the filesystem listing, with the file-existence mark. -/
def listLine (fs : FsState) (d : EfsItem) : List Char :=
  (if (fs.fileAt (resolveComps (parsePath d.filePath).comps)).isSome
    then "✅".data else "❌".data) ++
  " ".data ++ d.documentName ++ " (".data ++ d.documentType ++ ") - ".data ++
  d.uploadDate.take 10 ++ " - ".data ++ mbRender d.fileSize ++ "MB".data

/-- `list_documents` of the filesystem backend. -/
def list_documents (meta : MetaState) (fs : FsState) (ag fn mv : List Char)
    (params : List Param) : Except PyErr Envelope :=
  let document_type := getParam params "documentType".data
  let documents := filteredDocs meta document_type
  if documents.isEmpty then
    .ok (create_response ag fn mv "No documents found matching the criteria".data)
  else
    .ok (create_response ag fn mv
      ("Found ".data ++ natToChars documents.length ++ " document(s):\n".data ++
        (List.intersperse "\n".data
          ((documents.take 10).map (listLine fs))).flatten))

/-- `lambda_handler` of the filesystem backend: ensures the mount directory
exists, dispatches, and converts any exception into a bare 500 response. -/
def lambda_handler (meta : MetaState) (fs : FsState) (ev : DocInline.Event)
    (document_id current_time : List Char) (metaFails : Bool) :
    (MetaState × FsState) × HandlerResult :=
  let fs := fs.mkdirParents (resolveComps mountPath.comps)
  let run : (MetaState × FsState) × Except PyErr Envelope :=
    if ev.function = "saveDocument".data then
      save_document meta fs ev.actionGroup ev.function ev.messageVersion
        ev.parameters document_id current_time metaFails
    else if ev.function = "getDocument".data then
      ((meta, fs), get_document meta fs ev.actionGroup ev.function
        ev.messageVersion ev.parameters)
    else if ev.function = "listDocuments".data then
      ((meta, fs), list_documents meta fs ev.actionGroup ev.function
        ev.messageVersion ev.parameters)
    else
      ((meta, fs), .error (.valueError ("Unknown function: ".data ++ ev.function)))
  wrapRun run

end DocEfs

namespace DocMongo
open LegalDoc

/-- A file stored in GridFS by `fs.put(file_data, filename=…, metadata=…)`.
Timestamps (`datetime` values) are modelled as abstract natural numbers. -/
structure GridFile where
  data : List Nat
  filename : List Char
  mDocumentId : List Char
  mDocumentType : List Char
  mUploadDate : Nat
  mAnalysisResults : List Char
  mStatus : List Char
deriving DecidableEq, Repr

/-- A record of the `documents` metadata collection written by
`document_storage_mongodb.py`. -/
structure MongoDoc where
  documentId : List Char
  documentName : List Char
  documentType : List Char
  gridfsFileId : Nat
  uploadDate : Nat
  analysisResults : List Char
  status : List Char
  fileSize : Nat
deriving DecidableEq, Repr

/-- The MongoDB state: the GridFS files keyed by their ids, the `documents`
collection in insertion order, and the next fresh GridFS id. -/
structure MongoState where
  gridfs : List (Nat × GridFile)
  documents : List MongoDoc
  nextFileId : Nat
deriving DecidableEq, Repr

/-- `db.documents.find_one({'documentId': id})`. -/
def findOne (st : MongoState) (id : List Char) : Option MongoDoc :=
  st.documents.find? (fun d => d.documentId = id)

/-- `fs.get(file_id)`. -/
def gridGet (st : MongoState) (fileId : Nat) : Option GridFile :=
  (st.gridfs.find? (fun f => f.1 = fileId)).map (fun f => f.2)

/-- Message text of a failed `insert_one` (environment specific). -/
def insertErrMsg : List Char := "<insert_one failed>".data

/-- Message text of a failed connection attempt (environment specific). -/
def connErrMsg : List Char :=
  "All connection methods failed. Check MongoDB Atlas configuration.".data

/-- `save_document` of the blob-store backend.  `insertFails` injects a
failure of the `db.documents.insert_one` call (the metadata write), which in
the source is not guarded by any cleanup handler. -/
def save_document (st : MongoState) (ag fn mv : List Char)
    (params : List Param) (document_id : List Char) (now : Nat)
    (insertFails : Bool) : MongoState × Except PyErr Envelope :=
  let documentName := getParam params "documentName".data
  let documentContent := getParam params "documentContent".data
  let analysisResults := getParam params "analysisResults".data
  let documentType := getParam params "documentType".data
  if !truthy documentName || !truthy documentContent then
    (st, .error (.valueError "Document name and content are required".data))
  else
    let name := documentName.getD []
    let content := documentContent.getD []
    let file_data : List Nat :=
      match pyB64Decode? content with
      | some bs => bs
      | none => utf8Encode content
    let file_id := st.nextFileId
    let gfile : GridFile :=
      { data := file_data
        filename := name
        mDocumentId := document_id
        mDocumentType := orDefault documentType "legal_document".data
        mUploadDate := now
        mAnalysisResults := orDefault analysisResults "No analysis performed".data
        mStatus := "active".data }
    let st := { st with gridfs := st.gridfs ++ [(file_id, gfile)],
                        nextFileId := file_id + 1 }
    if insertFails then
      (st, .error (.exception insertErrMsg))
    else
      let doc : MongoDoc :=
        { documentId := document_id
          documentName := name
          documentType := orDefault documentType "legal_document".data
          gridfsFileId := file_id
          uploadDate := now
          analysisResults := orDefault analysisResults "No analysis performed".data
          status := "active".data
          fileSize := file_data.length }
      ({ st with documents := st.documents ++ [doc] },
        .ok (create_response ag fn mv
          ("Document \"".data ++ name ++
           "\" saved successfully with ID: ".data ++ document_id)))

/-- `strftime('%Y-%m-%d %H:%M:%S')` on an abstract timestamp, modelled as
decimal rendering. -/
def strftimeFull (t : Nat) : List Char := natToChars t

/-- `strftime('%Y-%m-%d')` on an abstract timestamp, modelled as decimal
rendering. -/
def strftimeDay (t : Nat) : List Char := natToChars t

/-- The content preview of the blob-store `get_document`:
`file_data.read(200).decode('utf-8')`, i.e. the first 200 stored bytes,
degrading to the binary marker when decoding fails. -/
def blobPreview (bs : List Nat) : List Char :=
  match utf8Decode? (bs.take 200) with
  | some cs => cs
  | none => "[Binary file - cannot preview text content]".data

/-- The body text of a found document. -/
def foundBody (d : MongoDoc) (file : GridFile) : List Char :=
  "Document Found:\nName: ".data ++ d.documentName ++
  "\nType: ".data ++ d.documentType ++
  "\nUpload Date: ".data ++ strftimeFull d.uploadDate ++
  "\nFile Size: ".data ++ natToChars d.fileSize ++
  " bytes\nAnalysis: ".data ++ d.analysisResults ++
  "\nContent Preview: ".data ++ blobPreview file.data ++
  (if d.fileSize > 200 then "...".data else [])

/-- `get_document` of the blob-store backend. -/
def get_document (st : MongoState) (ag fn mv : List Char)
    (params : List Param) : Except PyErr Envelope :=
  let document_id := getParam params "documentId".data
  if !truthy document_id then
    .error (.valueError "Document ID is required".data)
  else
    let id := document_id.getD []
    match findOne st id with
    | none =>
      .ok (create_response ag fn mv
        ("Document with ID ".data ++ id ++ " not found".data))
    | some document =>
      match gridGet st document.gridfsFileId with
      | none =>
        .error (.exception ("Error retrieving document: no file".data))
      | some file =>
        .ok (create_response ag fn mv (foundBody document file))

/-- The filtered records of the blob-store `list_documents`: the query
`{'status': 'active'}`, extended with `documentType` when the parameter is
truthy. -/
def filteredDocs (st : MongoState) (document_type : Option (List Char)) :
    List MongoDoc :=
  if truthy document_type then
    st.documents.filter (fun d =>
      d.status = "active".data ∧ d.documentType = document_type.getD [])
  else
    st.documents.filter (fun d => d.status = "active".data)

/-- Stable insertion of a record into a list sorted by `uploadDate`
descending. -/
def insertDesc (x : MongoDoc) : List MongoDoc → List MongoDoc
  | [] => [x]
  | y :: ys =>
    if x.uploadDate ≤ y.uploadDate then y :: insertDesc x ys else x :: y :: ys

/-- `.sort('uploadDate', -1)`: stable sort by `uploadDate` descending. -/
def sortByDateDesc : List MongoDoc → List MongoDoc
  | [] => []
  | x :: xs => insertDesc x (sortByDateDesc xs)

/-- The records actually returned by the blob-store listing query:
`find(query).sort('uploadDate', -1).limit(10)` — note the query-level limit. -/
def limitedDocs (st : MongoState) (document_type : Option (List Char)) :
    List MongoDoc :=
  (sortByDateDesc (filteredDocs st document_type)).take 10

/-- One display line of the blob-store listing. -/
def listLine (d : MongoDoc) : List Char :=
  "• ".data ++ d.documentName ++ " (".data ++ d.documentType ++ ") - ".data ++
    strftimeDay d.uploadDate ++ " - ".data ++ DocEfs.mbRender d.fileSize ++ "MB".data

/-- `list_documents` of the blob-store backend. -/
def list_documents (st : MongoState) (ag fn mv : List Char)
    (params : List Param) : Except PyErr Envelope :=
  let document_type := getParam params "documentType".data
  let documents := limitedDocs st document_type
  if documents.isEmpty then
    .ok (create_response ag fn mv "No documents found matching the criteria".data)
  else
    .ok (create_response ag fn mv
      ("Found ".data ++ natToChars documents.length ++ " document(s):\n".data ++
        (List.intersperse "\n".data (documents.map listLine)).flatten))

/-- `lambda_handler` of the blob-store backend.  `connOk` records whether
`get_mongodb_connection()` succeeded; on failure a bare 503 response is
returned before any dispatch. -/
def lambda_handler (st : MongoState) (ev : DocInline.Event)
    (document_id : List Char) (now : Nat) (connOk insertFails : Bool) :
    MongoState × HandlerResult :=
  if !connOk then
    (st, .httpError 503 ("Database connection failed: ".data ++ connErrMsg))
  else
    let run : MongoState × Except PyErr Envelope :=
      if ev.function = "saveDocument".data then
        save_document st ev.actionGroup ev.function ev.messageVersion
          ev.parameters document_id now insertFails
      else if ev.function = "getDocument".data then
        (st, get_document st ev.actionGroup ev.function ev.messageVersion
          ev.parameters)
      else if ev.function = "listDocuments".data then
        (st, list_documents st ev.actionGroup ev.function ev.messageVersion
          ev.parameters)
      else
        (st, .error (.valueError ("Unknown function: ".data ++ ev.function)))
    wrapRun run

end DocMongo

namespace DocInline
open LegalDoc

/-- The `document_item` that the inline `save_document` builds from its
(validated) parameters. -/
def savedItem (params : List Param) (document_id current_time : List Char) :
    DocItem :=
  let content := (getParam params "documentContent".data).getD []
  let content_size := utf8Len content
  { documentId := document_id
    documentName := (getParam params "documentName".data).getD []
    documentContent :=
      if content_size > 350000 then content.take 350000 ++ truncMarker
      else content
    documentType := orDefault (getParam params "documentType".data)
      "legal_document".data
    uploadDate := current_time
    lastModified := current_time
    analysisResults := orDefault (getParam params "analysisResults".data)
      "No analysis performed".data
    status := "active".data
    contentSize := content_size }

end DocInline

namespace DocEfs
open LegalDoc

/-- The file contents the filesystem backend stores for a given
`documentContent` string: the base64 decoding when it succeeds, the text
itself otherwise. -/
def efsFileData (content : List Char) : FileData :=
  match pyB64Decode? content with
  | some bs => .binary bs
  | none => .text content

/-- The per-document directory `Path(EFS_MOUNT_PATH) / document_id`. -/
def efsDocDir (document_id : List Char) : PPath :=
  mountPath.joinStr document_id

/-- The file path `document_dir / documentName`. -/
def efsFilePath (document_id name : List Char) : PPath :=
  (mountPath.joinStr document_id).joinStr name

/-- The metadata item the filesystem `save_document` persists on success. -/
def efsSavedItem (params : List Param) (id t : List Char) : EfsItem :=
  let name := (getParam params "documentName".data).getD []
  let content := (getParam params "documentContent".data).getD []
  { documentId := id
    documentName := name
    documentType := orDefault (getParam params "documentType".data)
      "legal_document".data
    filePath := renderPath (efsFilePath id name)
    uploadDate := t
    lastModified := t
    analysisResults := orDefault (getParam params "analysisResults".data)
      "No analysis performed".data
    status := "active".data
    fileSize := fileDataSize (efsFileData content) }

/-- The ancestor directories of the EFS mount root (present once the handler
has run `os.makedirs(EFS_MOUNT_PATH, exist_ok=True)`). -/
def mountPrefixes : List (List (List Char)) :=
  (List.range mountPath.comps.length).map (fun i => mountPath.comps.take (i + 1))

end DocEfs

namespace DocMongo
open LegalDoc

/-- The bytes the blob-store backend stores for a given `documentContent`
string: the base64 decoding when it succeeds, the UTF-8 encoding otherwise. -/
def mongoFileData (content : List Char) : List Nat :=
  match pyB64Decode? content with
  | some bs => bs
  | none => utf8Encode content

/-- The GridFS file the blob-store `save_document` writes. -/
def savedGridFile (params : List Param) (id : List Char) (now : Nat) :
    GridFile :=
  let name := (getParam params "documentName".data).getD []
  let content := (getParam params "documentContent".data).getD []
  { data := mongoFileData content
    filename := name
    mDocumentId := id
    mDocumentType := orDefault (getParam params "documentType".data)
      "legal_document".data
    mUploadDate := now
    mAnalysisResults := orDefault (getParam params "analysisResults".data)
      "No analysis performed".data
    mStatus := "active".data }

/-- The metadata record the blob-store `save_document` inserts on success. -/
def savedDoc (params : List Param) (id : List Char) (now fileId : Nat) :
    MongoDoc :=
  let name := (getParam params "documentName".data).getD []
  let content := (getParam params "documentContent".data).getD []
  { documentId := id
    documentName := name
    documentType := orDefault (getParam params "documentType".data)
      "legal_document".data
    gridfsFileId := fileId
    uploadDate := now
    analysisResults := orDefault (getParam params "analysisResults".data)
      "No analysis performed".data
    status := "active".data
    fileSize := (mongoFileData content).length }

end DocMongo

namespace LegalDoc

/-- The concrete parameter list used to exhibit the inline truncation
behavior on ASCII content of 350,001 bytes. -/
def c1Params : List Param :=
  [⟨"documentName".data, "big.txt".data⟩,
   ⟨"documentContent".data, List.replicate 350001 'a'⟩]

/-- A small valid parameter list whose content is ASCII and does not decode
as base64 (`"Hi, Bob."` keeps five base64-alphabet characters, and 5 % 4 = 1). -/
def wParams : List Param :=
  [⟨"documentName".data, "a.txt".data⟩,
   ⟨"documentContent".data, "Hi, Bob.".data⟩]

/-- A filesystem state in which exactly the EFS mount root (and its
ancestors) exist. -/
def wFs : DocEfs.FsState := ⟨DocEfs.mountPrefixes, []⟩

/-- Content of 175,001 two-byte characters: its UTF-8 length (350,002 bytes)
exceeds the 350,000-byte ceiling, but its character count is below 350,000,
so the character-based slice `documentContent[:350000]` truncates nothing. -/
def c3Content : List Char := List.replicate 175001 'é'

def c3Params : List Param :=
  [⟨"documentName".data, "wide.txt".data⟩,
   ⟨"documentContent".data, c3Content⟩]

/-- Is this result a raised `ValueError` (validation failure)? -/
def isValidationError : Except PyErr Envelope → Bool
  | .error (.valueError _) => true
  | _ => false

instance : DecidableEq (Except PyErr Envelope)
  | .ok x, .ok y =>
    if h : x = y then .isTrue (by rw [h]) else .isFalse (by simp [h])
  | .error x, .error y =>
    if h : x = y then .isTrue (by rw [h]) else .isFalse (by simp [h])
  | .ok _, .error _ => .isFalse (by simp)
  | .error _, .ok _ => .isFalse (by simp)

/-- A metadata record whose `status` is `"deleted"`, used to probe the
status filter of the listing operations. -/
def c5Item : DocInline.DocItem :=
  ⟨"d1".data, "old.txt".data, "x".data, "legal_document".data,
   "2024-01-01T00:00:00".data, "2024-01-01T00:00:00".data,
   "No analysis performed".data, "deleted".data, 1⟩

/-- The filesystem-backend analogue of `c5Item`. -/
def c5EfsItem : DocEfs.EfsItem :=
  ⟨"d1".data, "old.txt".data, "legal_document".data,
   "/mnt/efs/legal-documents/d1/old.txt".data, "2024-01-01T00:00:00".data,
   "2024-01-01T00:00:00".data, "No analysis performed".data, "deleted".data, 1⟩

/-- The blob-store-backend analogue of `c5Item`. -/
def c5MongoDoc : DocMongo.MongoDoc :=
  ⟨"d1".data, "old.txt".data, "legal_document".data, 0, 0,
   "No analysis performed".data, "deleted".data, 1⟩

/-- An active blob-store record with upload date and GridFS id `i`. -/
def c4Doc (i : Nat) : DocMongo.MongoDoc :=
  ⟨natToChars i, "doc".data, "legal_document".data, i, i,
   "No analysis performed".data, "active".data, 1⟩

/-- A blob-store state holding eleven active records. -/
def c4State : DocMongo.MongoState := ⟨[], (List.range 11).map c4Doc, 11⟩

/-- An event naming a function no backend registers. -/
def c7Event : DocInline.Event := ⟨"g".data, "badFunction".data, "1".data, []⟩

/-- An event for a save with no parameters at all (a validation failure). -/
def c7SaveEvent : DocInline.Event := ⟨"g".data, "saveDocument".data, "1".data, []⟩

/-- Parameters whose content `"abcd"` successfully decodes as base64, so the
filesystem and blob-store backends store decoded binary bytes instead of the
text. -/
def c6Params : List Param :=
  [⟨"documentName".data, "doc.bin".data⟩,
   ⟨"documentContent".data, "abcd".data⟩]

/-- Parameters whose document name `"./a"` contains a path separator yet
still resolves to a file inside the per-document directory. -/
def c10Params : List Param :=
  [⟨"documentName".data, "./a".data⟩,
   ⟨"documentContent".data, "Hi, Bob.".data⟩]

/-- An active filesystem-backend record. -/
def wEfsItem : DocEfs.EfsItem :=
  ⟨"d1".data, "a.txt".data, "legal_document".data,
   "/mnt/efs/legal-documents/d1/a.txt".data, "2024-01-01T00:00:00".data,
   "2024-01-01T00:00:00".data, "No analysis performed".data, "active".data, 3⟩

theorem utf8Len_append (a b : List Char) :
    utf8Len (a ++ b) = utf8Len a + utf8Len b := by
  simp [utf8Len]

theorem utf8Len_replicate (n : Nat) (c : Char) :
    utf8Len (List.replicate n c) = n * utf8CharLen c := by
  simp [utf8Len, List.map_replicate, List.sum_replicate, smul_eq_mul]

theorem utf8CharLen_le_four (c : Char) : utf8CharLen c ≤ 4 := by
  unfold utf8CharLen
  split <;> [omega; skip]
  split <;> [omega; skip]
  split <;> omega

theorem utf8Len_le_four_mul (l : List Char) : utf8Len l ≤ 4 * l.length := by
  induction l with
  | nil => simp [utf8Len]
  | cons c cs ih =>
    have := utf8CharLen_le_four c
    simp only [utf8Len, List.map_cons, List.sum_cons, List.length_cons] at *
    omega

theorem utf8Len_ascii_replicate (n : Nat) : utf8Len (List.replicate n 'a') = n := by
  rw [utf8Len_replicate, show utf8CharLen 'a' = 1 by decide, Nat.mul_one]

theorem utf8Len_truncMarker : utf8Len truncMarker = 60 := by decide

end LegalDoc

namespace DocInline
open LegalDoc

/-- Characterization of the inline `save_document` on validated input. -/
theorem save_document_eq (st : DynamoState) (ag fn mv : List Char)
    (params : List Param) (id t : List Char)
    (hn : truthy (getParam params "documentName".data) = true)
    (hc : truthy (getParam params "documentContent".data) = true) :
    save_document st ag fn mv params id t =
      (putItem st (savedItem params id t),
        .ok (create_response ag fn mv
          ("Document \"".data ++ (getParam params "documentName".data).getD [] ++
           "\" saved successfully with ID: ".data ++ id))) := by
  simp [save_document, hn, hc, savedItem]

/-- Looking up the key just written by `put_item` returns the new item. -/
theorem getItem_putItem (st : DynamoState) (it : DocItem) :
    getItem (putItem st it) it.documentId = some it := by
  unfold getItem putItem
  induction st.items with
  | nil => simp
  | cons d ds ih =>
    by_cases h : d.documentId = it.documentId <;>
      simp [List.filter_cons, h, ih]

/-- The size field of the item the inline backend persists. -/
theorem savedItem_contentSize (params : List Param) (id t content : List Char)
    (hc : getParam params "documentContent".data = some content) :
    (savedItem params id t).contentSize = utf8Len content := by
  rw [savedItem, hc]; rfl

/-- The content field of the item the inline backend persists. -/
theorem savedItem_content (params : List Param) (id t content : List Char)
    (hc : getParam params "documentContent".data = some content) :
    (savedItem params id t).documentContent =
      (if utf8Len content > 350000 then content.take 350000 ++ truncMarker
       else content) := by
  rw [savedItem, hc]; rfl

end DocInline

namespace LegalDoc

theorem truthy_some_ne {s : List Char} (h : s ≠ []) : truthy (some s) = true := by
  cases s with
  | nil => exact absurd rfl h
  | cons c cs => rfl

/-- Any error mapped through the top-level exception wrapper carries
status 500. -/
theorem wrapRun_error_500 {α : Type} (run : α × Except PyErr Envelope)
    (c : Nat) (b : List Char)
    (h : (wrapRun run).2 = .httpError c b) : c = 500 := by
  rcases run with ⟨st, r⟩
  cases r with
  | ok e => simp [wrapRun] at h
  | error e =>
    simp only [wrapRun, HandlerResult.httpError.injEq] at h
    exact h.1.symm

theorem utf8EncodeChar_ascii (c : Char) (h : c.toNat < 128) :
    utf8EncodeChar c = [c.toNat] := by
  unfold utf8EncodeChar
  rw [if_pos h]

theorem utf8Encode_ascii (s : List Char) (h : ∀ c ∈ s, c.toNat < 128) :
    utf8Encode s = s.map (fun c => c.toNat) := by
  induction s with
  | nil => rfl
  | cons c cs ih =>
    unfold utf8Encode at *
    simp only [List.flatMap_cons, List.map_cons]
    rw [utf8EncodeChar_ascii c (h c (List.mem_cons_self c cs)),
      ih (fun d hd => h d (List.mem_cons_of_mem c hd))]
    rfl

/-- Unfolding `utf8Decode?` at an ASCII lead byte. -/
theorem utf8Decode_cons_ascii (b : Nat) (rest : List Nat) (h : b < 0x80) :
    utf8Decode? (b :: rest) = (utf8Decode? rest).map (Char.ofNat b :: ·) := by
  show utf8DecodeAux none (b :: rest) = _
  rw [utf8DecodeAux.eq_def]
  dsimp only
  rw [if_pos h]
  rfl

theorem utf8Decode_map_ascii (s : List Char) (h : ∀ c ∈ s, c.toNat < 128) :
    utf8Decode? (s.map (fun c => c.toNat)) = some s := by
  induction s with
  | nil => rfl
  | cons c cs ih =>
    have hc : c.toNat < 128 := h c (List.mem_cons_self c cs)
    simp only [List.map_cons]
    rw [utf8Decode_cons_ascii _ _ hc,
      ih (fun d hd => h d (List.mem_cons_of_mem c hd))]
    simp [Char.ofNat_toNat]

/-- Decoding the first `n` bytes of the UTF-8 encoding of an ASCII string
yields its first `n` characters. -/
theorem utf8Decode_encode_take_ascii (s : List Char) (n : Nat)
    (h : ∀ c ∈ s, c.toNat < 128) :
    utf8Decode? ((utf8Encode s).take n) = some (s.take n) := by
  rw [utf8Encode_ascii s h, ← List.map_take]
  exact utf8Decode_map_ascii (s.take n)
    (fun c hc => h c (List.take_subset n s hc))

/-- `find?` over an appended fresh element, when nothing earlier matches. -/
theorem find?_append_fresh {α : Type} (p : α → Bool) (l : List α) (x : α)
    (hl : ∀ a ∈ l, p a = false) (hx : p x = true) :
    (l ++ [x]).find? p = some x := by
  induction l with
  | nil => simp [List.find?, hx]
  | cons a as ih =>
    rw [List.cons_append,
      List.find?_cons_of_neg _ (by rw [hl a (List.mem_cons_self a as)]; simp)]
    exact ih (fun b hb => hl b (List.mem_cons_of_mem a hb))

end LegalDoc

namespace DocEfs
open LegalDoc

/-- Resolution is the identity on paths without `".."` components. -/
theorem resolveComps_no_dots (l : List (List Char))
    (h : ∀ c ∈ l, c ≠ "..".data) : resolveComps l = l := by
  have aux : ∀ (l : List (List Char)) (acc : List (List Char)),
      (∀ c ∈ l, c ≠ "..".data) →
      l.foldl (fun acc c => if c = "..".data then acc.dropLast else acc ++ [c])
        acc = acc ++ l := by
    intro l
    induction l with
    | nil => intro acc _; simp
    | cons c cs ih =>
      intro acc h
      have hc : c ≠ "..".data := h c (by simp)
      simp only [List.foldl_cons, if_neg hc]
      rw [ih _ (fun d hd => h d (by simp [hd]))]
      simp
  simpa using aux l [] h

theorem fileAt_writeFile (fs : FsState) (p : List (List Char)) (d : FileData) :
    (fs.writeFile p d).fileAt p = some d := by
  unfold FsState.fileAt FsState.writeFile
  rw [LegalDoc.find?_append_fresh _ _ _
    (fun a ha => by simpa using (List.mem_filter.mp ha).2) (by simp)]
  rfl

theorem efs_getItem_putItem (st : MetaState) (it : EfsItem) :
    getItem (putItem st it) it.documentId = some it := by
  unfold getItem putItem
  induction st.items with
  | nil => simp
  | cons d ds ih =>
    by_cases h : d.documentId = it.documentId <;>
      simp [List.filter_cons, h, ih]

/-- A `mkdir(parents=True, exist_ok=True)` whose proper ancestors all exist
and whose final directory is new appends exactly that directory. -/
theorem mkdirParents_eq (fs : FsState) (d : List (List Char)) (n : Nat)
    (hlen : d.length = n + 1)
    (hpre : ∀ i ∈ List.range n, d.take (i + 1) ∈ fs.dirs)
    (hnew : d ∉ fs.dirs) :
    fs.mkdirParents d = ⟨fs.dirs ++ [d], fs.files⟩ := by
  have aux : ∀ (l : List Nat) (ds : List (List (List Char))),
      (∀ i ∈ l, d.take (i + 1) ∈ ds) →
      l.foldl (fun ds i => if d.take (i + 1) ∈ ds then ds else ds ++ [d.take (i + 1)])
        ds = ds := by
    intro l
    induction l with
    | nil => intro ds _; rfl
    | cons i is ih =>
      intro ds h
      simp only [List.foldl_cons, if_pos (h i (by simp))]
      exact ih ds (fun j hj => h j (by simp [hj]))
  unfold FsState.mkdirParents
  rw [hlen, List.range_succ, List.foldl_append, aux _ _ hpre]
  simp only [List.foldl_cons, List.foldl_nil]
  rw [List.take_of_length_le (by omega), if_neg hnew]

/-- The cleanup handler undoes a fresh directory-plus-file creation exactly. -/
theorem cleanup_restores (fs : FsState) (target docDir : List (List Char))
    (data : FileData)
    (hft : ∀ f ∈ fs.files, ¬ docDir <+: f.1)
    (hdd : ∀ d ∈ fs.dirs, ¬ docDir <+: d)
    (htd : docDir <+: target) :
    cleanup ⟨fs.dirs ++ [docDir], fs.files.filter (fun f => f.1 ≠ target) ++
      [(target, data)]⟩ target docDir = fs := by
  have hfile : ∀ f ∈ fs.files, f.1 ≠ target := by
    intro f hf heq
    exact hft f hf (heq ▸ htd)
  have hfilter : fs.files.filter (fun f => f.1 ≠ target) = fs.files :=
    List.filter_eq_self.mpr (fun f hf => by
      simpa using hfile f hf)
  unfold cleanup
  rw [hfilter]
  have hat : FsState.fileAt ⟨fs.dirs ++ [docDir], fs.files ++ [(target, data)]⟩
      target = some data := by
    unfold FsState.fileAt
    rw [find?_append_fresh _ _ _ (fun a ha => by simpa using hfile a ha) (by simp)]
    rfl
  rw [hat]
  simp only [Option.isSome_some, if_true]
  have hrm : FsState.removeFile ⟨fs.dirs ++ [docDir], fs.files ++ [(target, data)]⟩
      target = ⟨fs.dirs ++ [docDir], fs.files⟩ := by
    unfold FsState.removeFile
    congr 1
    rw [List.filter_append]
    rw [List.filter_eq_self.mpr (fun f hf => by simpa using hfile f hf)]
    simp
  rw [hrm]
  have hmem : docDir ∈ (⟨fs.dirs ++ [docDir], fs.files⟩ : FsState).dirs := by
    simp
  have hempty : FsState.dirEmpty ⟨fs.dirs ++ [docDir], fs.files⟩ docDir = true := by
    unfold FsState.dirEmpty
    refine (Bool.and_eq_true _ _).mpr ⟨?_, ?_⟩
    · rw [List.all_eq_true]
      intro f hf
      simp only [Bool.not_eq_true']
      exact (Bool.not_eq_true _).mp (by
        simpa [List.isPrefixOf_iff_prefix] using hft f hf)
    · rw [List.all_eq_true]
      intro d hd
      rcases List.mem_append.mp hd with h | h
      · have hp : docDir.isPrefixOf d = false := by
          rw [← Bool.not_eq_true, List.isPrefixOf_iff_prefix]
          exact hdd d h
        simp [hp]
      · simp only [List.mem_singleton] at h
        simp [h]
  rw [if_pos ⟨hmem, hempty⟩]
  unfold FsState.removeDir
  have hne : ∀ d ∈ fs.dirs, d ≠ docDir := by
    intro d hd heq
    exact hdd d hd (heq ▸ List.prefix_refl _)
  congr 1
  rw [List.filter_append]
  rw [List.filter_eq_self.mpr (fun d hd => by simpa using hne d hd)]
  simp

/-- Unfolding equation of `splitOnSlash` at a cons cell. -/
theorem splitOnSlash_cons_eq (c : Char) (rest : List Char) :
    splitOnSlash (c :: rest)
      = (match splitOnSlash rest with
        | [] => if c = '/' then [[], []] else [[c]]
        | h :: t => if c = '/' then [] :: h :: t else (c :: h) :: t) := rfl

theorem splitOnSlash_ne_nil (s : List Char) : splitOnSlash s ≠ [] := by
  cases s with
  | nil => simp [splitOnSlash]
  | cons c rest =>
    rw [splitOnSlash_cons_eq]
    cases splitOnSlash rest with
    | nil => by_cases hc : c = '/' <;> simp [hc]
    | cons h t => by_cases hc : c = '/' <;> simp [hc]

/-- Splitting a slash-free string yields that string alone. -/
theorem splitOnSlash_no_slash (s : List Char) (h : '/' ∉ s) :
    splitOnSlash s = [s] := by
  induction s with
  | nil => rfl
  | cons c cs ih =>
    have hc : c ≠ '/' := fun hh => h (hh ▸ List.mem_cons_self c cs)
    rw [splitOnSlash_cons_eq, ih (fun hm => h (List.mem_cons_of_mem c hm))]
    simp [hc]

/-- Splitting distributes over the first slash after a slash-free block. -/
theorem splitOnSlash_append_slash (c t : List Char) (h : '/' ∉ c) :
    splitOnSlash (c ++ '/' :: t) = c :: splitOnSlash t := by
  induction c with
  | nil =>
    simp only [List.nil_append]
    rw [splitOnSlash_cons_eq]
    cases hsp : splitOnSlash t with
    | nil => exact absurd hsp (splitOnSlash_ne_nil t)
    | cons x xs => simp
  | cons a as ih =>
    have ha : a ≠ '/' := fun hh => h (hh ▸ List.mem_cons_self a as)
    have h' : '/' ∉ as := fun hm => h (List.mem_cons_of_mem a hm)
    simp only [List.cons_append]
    rw [splitOnSlash_cons_eq, ih h']
    simp [ha]

/-- Splitting the slash-joined rendering of slash-free components recovers
the components. -/
theorem splitOnSlash_intercalate (cs : List (List Char))
    (h : ∀ c ∈ cs, '/' ∉ c) (hne : cs ≠ []) :
    splitOnSlash (List.intersperse "/".data cs).flatten = cs := by
  induction cs with
  | nil => exact absurd rfl hne
  | cons c cs ih =>
    cases cs with
    | nil =>
      simp only [List.intersperse_single, List.flatten, List.append_nil]
      exact splitOnSlash_no_slash c (h c (by simp))
    | cons c' cs' =>
      rw [List.intersperse_cons_cons]
      simp only [List.flatten_cons]
      have hflat : "/".data ++ (List.intersperse "/".data (c' :: cs')).flatten
          = '/' :: (List.intersperse "/".data (c' :: cs')).flatten := rfl
      rw [← List.append_assoc, List.append_assoc c, hflat,
        splitOnSlash_append_slash c _ (h c (by simp)),
        ih (fun d hd => h d (List.mem_cons_of_mem c hd)) (by simp)]

/-- Parsing the rendering of an absolute path with simple components is the
identity. -/
theorem parsePath_renderPath (cs : List (List Char))
    (h : ∀ c ∈ cs, '/' ∉ c ∧ c ≠ [] ∧ c ≠ ".".data) (hne : cs ≠ []) :
    parsePath (renderPath ⟨true, cs⟩) = ⟨true, cs⟩ := by
  unfold parsePath renderPath
  simp only [if_true, PPath.mk.injEq, List.singleton_append]
  have hsplit : splitOnSlash ('/' :: (List.intersperse "/".data cs).flatten)
      = [] :: cs := by
    rw [splitOnSlash_cons_eq,
      splitOnSlash_intercalate cs (fun c hc => (h c hc).1) hne]
    cases cs with
    | nil => exact absurd rfl hne
    | cons c cs' => simp
  refine ⟨by simp, ?_⟩
  rw [hsplit, List.filter_cons, if_neg (by simp)]
  exact List.filter_eq_self.mpr (fun c hc => by
    have := h c hc
    simp [this.2.1, this.2.2])

/-- A nonempty name without slashes that is not `"."` parses to a single
relative component. -/
theorem parsePath_simple (s : List Char) (hs : '/' ∉ s) (hne : s ≠ [])
    (hdot : s ≠ ".".data) : parsePath s = ⟨false, [s]⟩ := by
  unfold parsePath
  simp only [PPath.mk.injEq]
  constructor
  · cases s with
    | nil => exact absurd rfl hne
    | cons c cs =>
      have : c ≠ '/' := fun hh => hs (hh ▸ List.mem_cons_self c cs)
      simp [this]
  · rw [splitOnSlash_no_slash s hs, List.filter_cons]
    simp [hne, hdot]

theorem mount_comps_eq :
    mountPath.comps = ["mnt".data, "efs".data, "legal-documents".data] := by
  decide

/-- The per-document directory resolves to the mount components plus the id. -/
theorem efsDocDir_resolved (id : List Char)
    (hid : parsePath id = ⟨false, [id]⟩) (hid2 : id ≠ "..".data) :
    resolveComps (efsDocDir id).comps = mountPath.comps ++ [id] := by
  have h1 : (efsDocDir id).comps = mountPath.comps ++ [id] := by
    unfold efsDocDir PPath.joinStr
    rw [hid]
    rfl
  rw [h1]
  apply resolveComps_no_dots
  intro c hc
  rcases List.mem_append.mp hc with h | h
  · rw [mount_comps_eq] at h
    fin_cases h <;> decide
  · simp only [List.mem_singleton] at h
    exact h ▸ hid2

/-- The file path resolves to mount components, id, and name. -/
theorem efsFilePath_resolved (id name : List Char)
    (hid : parsePath id = ⟨false, [id]⟩) (hid2 : id ≠ "..".data)
    (hname : parsePath name = ⟨false, [name]⟩) (hname2 : name ≠ "..".data) :
    resolveComps (efsFilePath id name).comps
      = mountPath.comps ++ [id, name] := by
  have h1 : (efsFilePath id name).comps
      = (mountPath.comps ++ [id]) ++ [name] := by
    unfold efsFilePath PPath.joinStr
    rw [hid, hname]
    rfl
  rw [h1, show (mountPath.comps ++ [id]) ++ [name]
      = mountPath.comps ++ [id, name] from by simp]
  apply resolveComps_no_dots
  intro c hc
  rcases List.mem_append.mp hc with h | h
  · rw [mount_comps_eq] at h
    fin_cases h <;> decide
  · rcases List.mem_cons.mp h with h | h
    · exact h ▸ hid2
    · simp only [List.mem_singleton] at h
      exact h ▸ hname2

/-- After `mkdir`, opening the file for writing succeeds when the
per-document directory and the target are fresh. -/
theorem efs_canOpenWrite (fs : FsState) (id name : List Char)
    (hid : parsePath id = ⟨false, [id]⟩) (hid2 : id ≠ "..".data)
    (hname : parsePath name = ⟨false, [name]⟩) (hname2 : name ≠ "..".data)
    (hm : ∀ p ∈ mountPrefixes, p ∈ fs.dirs)
    (hdirfresh : mountPath.comps ++ [id] ∉ fs.dirs)
    (htfresh : mountPath.comps ++ [id, name] ∉ fs.dirs) :
    ((fs.mkdirParents (resolveComps (efsDocDir id).comps)).canOpenWrite
      (resolveComps (efsFilePath id name).comps)) = true := by
  rw [efsDocDir_resolved id hid hid2, efsFilePath_resolved id name hid hid2
    hname hname2]
  rw [mkdirParents_eq fs _ 3 (by simp [show mountPath.comps.length = 3 by decide])
    ?_ hdirfresh]
  · unfold FsState.canOpenWrite
    refine (Bool.and_eq_true _ _).mpr ⟨(Bool.and_eq_true _ _).mpr ⟨?_, ?_⟩, ?_⟩
    · simp
    · have hdl : (mountPath.comps ++ [id, name]).dropLast
          = mountPath.comps ++ [id] := by
        have happ : mountPath.comps ++ [id, name]
            = (mountPath.comps ++ [id]) ++ [name] := by simp
        rw [happ, List.dropLast_concat]
      rw [hdl]
      simp
    · simp only [Bool.not_true, decide_eq_false_iff_not, decide_eq_true_eq]
      intro hmem
      rcases List.mem_append.mp hmem with h | h
      · exact htfresh h
      · simp only [List.mem_singleton] at h
        have := congrArg List.length h
        simp at this
  · intro i hi
    have hi3 : i < 3 := by simpa using hi
    have htake : (mountPath.comps ++ [id]).take (i + 1)
        = mountPath.comps.take (i + 1) :=
      List.take_append_of_le_length (by
        rw [show mountPath.comps.length = 3 by decide]; omega)
    rw [htake]
    apply hm
    unfold mountPrefixes
    refine List.mem_map.mpr ⟨i, ?_, rfl⟩
    rw [List.mem_range, show mountPath.comps.length = 3 by decide]
    exact hi3

/-- `mkdir(parents=True)` of a fresh per-document directory under an
existing mount root appends exactly that directory. -/
theorem efs_mkdir_eq (fs : FsState) (id : List Char)
    (hm : ∀ p ∈ mountPrefixes, p ∈ fs.dirs)
    (hdirfresh : mountPath.comps ++ [id] ∉ fs.dirs) :
    fs.mkdirParents (mountPath.comps ++ [id])
      = ⟨fs.dirs ++ [mountPath.comps ++ [id]], fs.files⟩ := by
  refine mkdirParents_eq fs _ 3
    (by simp [show mountPath.comps.length = 3 by decide]) ?_ hdirfresh
  intro i hi
  have hi3 : i < 3 := by simpa using hi
  rw [List.take_append_of_le_length (by
    rw [show mountPath.comps.length = 3 by decide]; omega)]
  apply hm
  unfold mountPrefixes
  refine List.mem_map.mpr ⟨i, ?_, rfl⟩
  rw [List.mem_range, show mountPath.comps.length = 3 by decide]
  exact hi3

/-- Characterization of the filesystem `save_document` on validated input
when the content write succeeds and the metadata write does not fail. -/
theorem efs_save_eq (meta : MetaState) (fs : FsState) (ag fn mv : List Char)
    (params : List Param) (id t name content : List Char)
    (hn : getParam params "documentName".data = some name) (hne : name ≠ [])
    (hc : getParam params "documentContent".data = some content)
    (hce : content ≠ [])
    (hopen : ((fs.mkdirParents (resolveComps (efsDocDir id).comps)).canOpenWrite
        (resolveComps (efsFilePath id name).comps)) = true) :
    save_document meta fs ag fn mv params id t false =
      ((putItem meta (efsSavedItem params id t),
        (fs.mkdirParents (resolveComps (efsDocDir id).comps)).writeFile
          (resolveComps (efsFilePath id name).comps) (efsFileData content)),
       .ok (create_response ag fn mv
        ("Document \"".data ++ name ++
         "\" saved successfully with ID: ".data ++ id))) := by
  unfold save_document efsSavedItem efsFileData
  rw [hn, hc]
  simp only [truthy_some_ne hne, truthy_some_ne hce, Bool.not_true,
    Bool.or_self, Bool.false_eq_true, if_false, Option.getD_some]
  unfold efsDocDir efsFilePath at hopen
  rw [hopen]
  simp only [Bool.not_true, Bool.false_eq_true, if_false, efsDocDir, efsFilePath]

/-- Characterization of the filesystem `save_document` on validated input
when the content write succeeds but the metadata write fails. -/
theorem efs_save_metaFail_eq (meta : MetaState) (fs : FsState)
    (ag fn mv : List Char) (params : List Param) (id t name content : List Char)
    (hn : getParam params "documentName".data = some name) (hne : name ≠ [])
    (hc : getParam params "documentContent".data = some content)
    (hce : content ≠ [])
    (hopen : ((fs.mkdirParents (resolveComps (efsDocDir id).comps)).canOpenWrite
        (resolveComps (efsFilePath id name).comps)) = true) :
    save_document meta fs ag fn mv params id t true =
      ((meta,
        cleanup
          ((fs.mkdirParents (resolveComps (efsDocDir id).comps)).writeFile
            (resolveComps (efsFilePath id name).comps) (efsFileData content))
          (resolveComps (efsFilePath id name).comps)
          (resolveComps (efsDocDir id).comps)),
       .error (.exception ("Error saving document: ".data ++ putItemErrMsg))) := by
  unfold save_document efsFileData
  rw [hn, hc]
  simp only [truthy_some_ne hne, truthy_some_ne hce, Bool.not_true,
    Bool.or_self, Bool.false_eq_true, if_false, Option.getD_some]
  unfold efsDocDir efsFilePath at hopen
  rw [hopen]
  simp only [Bool.not_true, Bool.false_eq_true, if_false, if_true,
    efsDocDir, efsFilePath]

end DocEfs

namespace DocMongo
open LegalDoc

/-- Characterization of the blob-store `save_document` on validated input
when the metadata insert succeeds. -/
theorem mongo_save_eq (st : MongoState) (ag fn mv : List Char)
    (params : List Param) (id : List Char) (now : Nat) (name content : List Char)
    (hn : getParam params "documentName".data = some name) (hne : name ≠ [])
    (hc : getParam params "documentContent".data = some content)
    (hce : content ≠ []) :
    save_document st ag fn mv params id now false =
      (⟨st.gridfs ++ [(st.nextFileId, savedGridFile params id now)],
        st.documents ++ [savedDoc params id now st.nextFileId],
        st.nextFileId + 1⟩,
       .ok (create_response ag fn mv
        ("Document \"".data ++ name ++
         "\" saved successfully with ID: ".data ++ id))) := by
  unfold save_document savedGridFile savedDoc mongoFileData
  rw [hn, hc]
  simp only [truthy_some_ne hne, truthy_some_ne hce, Bool.not_true,
    Bool.or_self, Bool.false_eq_true, if_false, Option.getD_some]

/-- Characterization of the blob-store `save_document` on validated input
when the metadata insert fails: the GridFS write persists, no metadata
record is added, and the exception propagates. -/
theorem mongo_save_insertFail_eq (st : MongoState) (ag fn mv : List Char)
    (params : List Param) (id : List Char) (now : Nat) (name content : List Char)
    (hn : getParam params "documentName".data = some name) (hne : name ≠ [])
    (hc : getParam params "documentContent".data = some content)
    (hce : content ≠ []) :
    save_document st ag fn mv params id now true =
      (⟨st.gridfs ++ [(st.nextFileId, savedGridFile params id now)],
        st.documents, st.nextFileId + 1⟩,
       .error (.exception insertErrMsg)) := by
  unfold save_document savedGridFile mongoFileData
  rw [hn, hc]
  simp only [truthy_some_ne hne, truthy_some_ne hce, Bool.not_true,
    Bool.or_self, Bool.false_eq_true, if_false, Option.getD_some, if_true]

theorem savedDoc_gridfsFileId (params : List Param) (id : List Char)
    (now fid : Nat) : (savedDoc params id now fid).gridfsFileId = fid := rfl

theorem savedDoc_fileSize (params : List Param) (id : List Char)
    (now fid : Nat) (content : List Char)
    (hc : getParam params "documentContent".data = some content) :
    (savedDoc params id now fid).fileSize = (mongoFileData content).length := by
  rw [savedDoc, hc]; rfl

theorem savedGridFile_data (params : List Param) (id : List Char) (now : Nat)
    (content : List Char)
    (hc : getParam params "documentContent".data = some content) :
    (savedGridFile params id now).data = mongoFileData content := by
  rw [savedGridFile, hc]; rfl

/-- `fs.get` finds a freshly appended GridFS file. -/
theorem gridGet_append_fresh (l : List (Nat × GridFile)) (docs : List MongoDoc)
    (nf fid : Nat) (g : GridFile) (hfresh : ∀ p ∈ l, p.1 ≠ fid) :
    gridGet ⟨l ++ [(fid, g)], docs, nf⟩ fid = some g := by
  unfold gridGet
  rw [find?_append_fresh _ _ _ (fun a ha => by simpa using hfresh a ha) (by simp)]
  rfl

/-- Appending a GridFS file with a different id does not change a lookup. -/
theorem gridGet_append_old (l : List (Nat × GridFile)) (docs : List MongoDoc)
    (n nf : Nat) (g : GridFile) (fid : Nat) (h : fid ≠ nf) :
    gridGet ⟨l ++ [(nf, g)], docs, n⟩ fid = gridGet ⟨l, docs, n⟩ fid := by
  unfold gridGet
  induction l with
  | nil =>
    simp only [List.nil_append]
    rw [List.find?_cons_of_neg _ (by simpa using fun hh => h hh.symm)]
  | cons a as ih =>
    by_cases ha : a.1 = fid
    · rw [List.cons_append, List.find?_cons_of_pos _ (by simpa using ha),
        List.find?_cons_of_pos _ (by simpa using ha)]
    · rw [List.cons_append, List.find?_cons_of_neg _ (by simpa using ha),
        List.find?_cons_of_neg _ (by simpa using ha)]
      exact ih

/-- A failed metadata insert leaves `get_document` unchanged for every
request: the orphaned GridFS file is unreachable, since lookups go through
the metadata collection. -/
theorem mongo_get_unaffected (st : MongoState) (g : GridFile)
    (ag fn mv : List Char) (params2 : List Param)
    (hfresh : ∀ d ∈ st.documents, d.gridfsFileId ≠ st.nextFileId) :
    get_document ⟨st.gridfs ++ [(st.nextFileId, g)], st.documents,
        st.nextFileId + 1⟩ ag fn mv params2
      = get_document st ag fn mv params2 := by
  unfold get_document
  cases htr : truthy (getParam params2 "documentId".data) with
  | false => simp [htr]
  | true =>
    simp only [htr, Bool.not_true, Bool.false_eq_true, if_false]
    have hsame : findOne ⟨st.gridfs ++ [(st.nextFileId, g)], st.documents,
        st.nextFileId + 1⟩ ((getParam params2 "documentId".data).getD [])
        = findOne st ((getParam params2 "documentId".data).getD []) := rfl
    rw [hsame]
    cases hfo : findOne st ((getParam params2 "documentId".data).getD []) with
    | none => rfl
    | some document =>
      have hmem : document ∈ st.documents :=
        List.mem_of_find?_eq_some hfo
      dsimp only
      rw [gridGet_append_old st.gridfs st.documents (st.nextFileId + 1)
        st.nextFileId g document.gridfsFileId (hfresh document hmem)]
      rfl

/-- A failed metadata insert leaves `list_documents` unchanged for every
request. -/
theorem mongo_list_unaffected (st : MongoState) (g : GridFile)
    (ag fn mv : List Char) (params2 : List Param) :
    list_documents ⟨st.gridfs ++ [(st.nextFileId, g)], st.documents,
        st.nextFileId + 1⟩ ag fn mv params2
      = list_documents st ag fn mv params2 := rfl

end DocMongo

namespace DocEfs
open LegalDoc

theorem efsSavedItem_fileSize (params : List Param) (id t content : List Char)
    (hc : getParam params "documentContent".data = some content) :
    (efsSavedItem params id t).fileSize = fileDataSize (efsFileData content) := by
  rw [efsSavedItem, hc]; rfl

end DocEfs

namespace LegalDoc
open DocInline

/-- C1 (amended): for every successful save, the persisted size field equals
the exact stored byte length for the filesystem and blob-store backends, and
for the inline backend whenever no truncation occurs; when the inline backend
truncates, the stored `contentSize` is the original pre-truncation byte
length, not the stored (truncated) length. -/
theorem c1_size_field_amended :
    (∀ (st : DynamoState) (ag fn mv : List Char) (params : List Param)
        (id t content : List Char),
      getParam params "documentContent".data = some content → content ≠ [] →
      truthy (getParam params "documentName".data) = true →
      utf8Len content ≤ 350000 →
      (DocInline.save_document st ag fn mv params id t).1
          = putItem st (savedItem params id t) ∧
        (savedItem params id t).contentSize
          = utf8Len (savedItem params id t).documentContent) ∧
    (∀ (params : List Param) (id t content : List Char),
      getParam params "documentContent".data = some content →
      (savedItem params id t).contentSize = utf8Len content) ∧
    (∀ (meta : DocEfs.MetaState) (fs : DocEfs.FsState) (ag fn mv : List Char)
        (params : List Param) (id t name content : List Char),
      getParam params "documentName".data = some name → name ≠ [] →
      getParam params "documentContent".data = some content → content ≠ [] →
      ((fs.mkdirParents (DocEfs.resolveComps (DocEfs.efsDocDir id).comps)).canOpenWrite
        (DocEfs.resolveComps (DocEfs.efsFilePath id name).comps)) = true →
      (DocEfs.save_document meta fs ag fn mv params id t false).1
          = (DocEfs.putItem meta (DocEfs.efsSavedItem params id t),
             (fs.mkdirParents
               (DocEfs.resolveComps (DocEfs.efsDocDir id).comps)).writeFile
               (DocEfs.resolveComps (DocEfs.efsFilePath id name).comps)
               (DocEfs.efsFileData content)) ∧
        ((DocEfs.save_document meta fs ag fn mv params id t false).1.2.fileAt
          (DocEfs.resolveComps (DocEfs.efsFilePath id name).comps))
          = some (DocEfs.efsFileData content) ∧
        (DocEfs.efsSavedItem params id t).fileSize
          = DocEfs.fileDataSize (DocEfs.efsFileData content)) ∧
    (∀ (st : DocMongo.MongoState) (ag fn mv : List Char) (params : List Param)
        (id : List Char) (now : Nat) (name content : List Char),
      getParam params "documentName".data = some name → name ≠ [] →
      getParam params "documentContent".data = some content → content ≠ [] →
      (∀ p ∈ st.gridfs, p.1 ≠ st.nextFileId) →
      (DocMongo.save_document st ag fn mv params id now false).1.documents
          = st.documents ++ [DocMongo.savedDoc params id now st.nextFileId] ∧
        DocMongo.gridGet (DocMongo.save_document st ag fn mv params id now false).1
            (DocMongo.savedDoc params id now st.nextFileId).gridfsFileId
          = some (DocMongo.savedGridFile params id now) ∧
        (DocMongo.savedDoc params id now st.nextFileId).fileSize
          = (DocMongo.savedGridFile params id now).data.length) := by
  refine ⟨?_, ?_, ?_, ?_⟩
  · intro st ag fn mv params id t content hc hce hn hsz
    have hct : truthy (getParam params "documentContent".data) = true := by
      rw [hc]; exact truthy_some_ne hce
    constructor
    · rw [save_document_eq st ag fn mv params id t hn hct]
    · rw [savedItem_contentSize params id t content hc,
        savedItem_content params id t content hc, if_neg (by omega)]
  · intro params id t content hc
    exact savedItem_contentSize params id t content hc
  · intro meta fs ag fn mv params id t name content hn hne hc hce hopen
    rw [DocEfs.efs_save_eq meta fs ag fn mv params id t name content
      hn hne hc hce hopen]
    refine ⟨rfl, ?_, DocEfs.efsSavedItem_fileSize params id t content hc⟩
    exact DocEfs.fileAt_writeFile _ _ _
  · intro st ag fn mv params id now name content hn hne hc hce hfresh
    rw [DocMongo.mongo_save_eq st ag fn mv params id now name content
      hn hne hc hce]
    refine ⟨rfl, ?_, ?_⟩
    · rw [DocMongo.savedDoc_gridfsFileId]
      exact DocMongo.gridGet_append_fresh st.gridfs _ _ _ _ hfresh
    · rw [DocMongo.savedDoc_fileSize params id now st.nextFileId content hc,
        DocMongo.savedGridFile_data params id now content hc]

/-- Witness for C1: the amended statement applied to a concrete save of
`"Hi, Bob."` on each backend. -/
theorem c1_size_field_witness :
    utf8Len "Hi, Bob.".data ≤ 350000 ∧
    ((DocInline.save_document ⟨[]⟩ "g".data "saveDocument".data "1".data
        wParams "id-1".data "T0".data).1
        = putItem ⟨[]⟩ (savedItem wParams "id-1".data "T0".data) ∧
      (savedItem wParams "id-1".data "T0".data).contentSize
        = utf8Len (savedItem wParams "id-1".data "T0".data).documentContent) ∧
    (savedItem wParams "id-1".data "T0".data).contentSize
      = utf8Len "Hi, Bob.".data ∧
    ((DocEfs.save_document ⟨[]⟩ wFs "g".data "saveDocument".data "1".data
        wParams "id-1".data "T0".data false).1
        = (DocEfs.putItem ⟨[]⟩ (DocEfs.efsSavedItem wParams "id-1".data "T0".data),
           (wFs.mkdirParents
             (DocEfs.resolveComps (DocEfs.efsDocDir "id-1".data).comps)).writeFile
             (DocEfs.resolveComps
               (DocEfs.efsFilePath "id-1".data "a.txt".data).comps)
             (DocEfs.efsFileData "Hi, Bob.".data)) ∧
      ((DocEfs.save_document ⟨[]⟩ wFs "g".data "saveDocument".data "1".data
          wParams "id-1".data "T0".data false).1.2.fileAt
        (DocEfs.resolveComps (DocEfs.efsFilePath "id-1".data "a.txt".data).comps))
        = some (DocEfs.efsFileData "Hi, Bob.".data) ∧
      (DocEfs.efsSavedItem wParams "id-1".data "T0".data).fileSize
        = DocEfs.fileDataSize (DocEfs.efsFileData "Hi, Bob.".data)) ∧
    ((DocMongo.save_document ⟨[], [], 0⟩ "g".data "saveDocument".data "1".data
        wParams "id-1".data 7 false).1.documents
        = [] ++ [DocMongo.savedDoc wParams "id-1".data 7 0] ∧
      DocMongo.gridGet (DocMongo.save_document ⟨[], [], 0⟩ "g".data
          "saveDocument".data "1".data wParams "id-1".data 7 false).1
          (DocMongo.savedDoc wParams "id-1".data 7 0).gridfsFileId
        = some (DocMongo.savedGridFile wParams "id-1".data 7) ∧
      (DocMongo.savedDoc wParams "id-1".data 7 0).fileSize
        = (DocMongo.savedGridFile wParams "id-1".data 7).data.length) :=
  ⟨by decide,
   c1_size_field_amended.1 ⟨[]⟩ "g".data "saveDocument".data "1".data wParams
     "id-1".data "T0".data "Hi, Bob.".data rfl (by decide) rfl (by decide),
   c1_size_field_amended.2.1 wParams "id-1".data "T0".data "Hi, Bob.".data rfl,
   c1_size_field_amended.2.2.1 ⟨[]⟩ wFs "g".data "saveDocument".data "1".data
     wParams "id-1".data "T0".data "a.txt".data "Hi, Bob.".data rfl (by decide)
     rfl (by decide) (by decide),
   c1_size_field_amended.2.2.2 ⟨[], [], 0⟩ "g".data "saveDocument".data
     "1".data wParams "id-1".data 7 "a.txt".data "Hi, Bob.".data rfl (by decide)
     rfl (by decide) (by simp)⟩

/-- C3 (amended): when the UTF-8 length of the content exceeds 350,000 bytes,
the inline backend stores the content truncated to its first 350,000
*characters* (not bytes) with the literal marker appended; the stored content
always ends with the exact marker, and its UTF-8 byte length is at most
4 × 350,000 plus the marker's length (not 350,000 plus the marker's length,
since the character slice can leave up to four bytes per character). -/
theorem c3_truncation_amended (st : DynamoState) (ag fn mv : List Char)
    (params : List Param) (id t content : List Char)
    (hn : truthy (getParam params "documentName".data) = true)
    (hc : getParam params "documentContent".data = some content)
    (hsz : utf8Len content > 350000) :
    (savedItem params id t).documentContent
        = content.take 350000 ++ truncMarker ∧
      truncMarker <:+ (savedItem params id t).documentContent ∧
      utf8Len (savedItem params id t).documentContent
        ≤ 4 * 350000 + utf8Len truncMarker ∧
      (DocInline.save_document st ag fn mv params id t).1
        = putItem st (savedItem params id t) := by
  have hcontent : (savedItem params id t).documentContent
      = content.take 350000 ++ truncMarker := by
    rw [savedItem_content params id t content hc, if_pos hsz]
  have hce : content ≠ [] := by
    intro h
    rw [h] at hsz
    simp [utf8Len] at hsz
  have hct : truthy (getParam params "documentContent".data) = true := by
    rw [hc]; exact truthy_some_ne hce
  refine ⟨hcontent, ?_, ?_, ?_⟩
  · rw [hcontent]; exact List.suffix_append _ _
  · rw [hcontent, utf8Len_append]
    have h1 : utf8Len (content.take 350000) ≤ 4 * 350000 := by
      calc utf8Len (content.take 350000) ≤ 4 * (content.take 350000).length :=
            utf8Len_le_four_mul _
        _ ≤ 4 * 350000 := by
            have := List.length_take_le 350000 content
            omega
    omega
  · rw [save_document_eq st ag fn mv params id t hn hct]

/-- Witness for C3: the amended statement applied to 350,001 bytes of ASCII
content. -/
theorem c3_truncation_witness :
    utf8Len (List.replicate 350001 'a') > 350000 ∧
    ((savedItem c1Params "id-1".data "T0".data).documentContent
        = (List.replicate 350001 'a').take 350000 ++ truncMarker ∧
      truncMarker <:+ (savedItem c1Params "id-1".data "T0".data).documentContent ∧
      utf8Len (savedItem c1Params "id-1".data "T0".data).documentContent
        ≤ 4 * 350000 + utf8Len truncMarker ∧
      (DocInline.save_document ⟨[]⟩ "g".data "saveDocument".data "1".data
          c1Params "id-1".data "T0".data).1
        = putItem ⟨[]⟩ (savedItem c1Params "id-1".data "T0".data)) :=
  ⟨by rw [utf8Len_ascii_replicate]; norm_num,
   c3_truncation_amended ⟨[]⟩ "g".data "saveDocument".data "1".data c1Params
     "id-1".data "T0".data (List.replicate 350001 'a') rfl rfl
     (by rw [utf8Len_ascii_replicate]; norm_num)⟩

/-- C3, counterexample: 175,001 copies of the two-byte character `'é'` have
UTF-8 length 350,002 > 350,000, so truncation is triggered; but the
character-based slice keeps all 175,001 characters, and the stored content is
the whole original content plus the marker — 350,062 bytes, which exceeds
350,000 plus the marker's length (350,060). -/
theorem c3_truncation_counterexample :
    utf8Len c3Content > 350000 ∧
    (DocInline.save_document ⟨[]⟩ "g".data "saveDocument".data "1".data
        c3Params "id-1".data "T0".data).1.items
      = [savedItem c3Params "id-1".data "T0".data] ∧
    (savedItem c3Params "id-1".data "T0".data).documentContent
      = c3Content ++ truncMarker ∧
    utf8Len (savedItem c3Params "id-1".data "T0".data).documentContent
      > 350000 + utf8Len truncMarker := by
  have hlen : utf8Len c3Content = 350002 := by
    rw [c3Content, utf8Len_replicate, show utf8CharLen 'é' = 2 by decide]
  have hc : getParam c3Params "documentContent".data = some c3Content := rfl
  have hsz : utf8Len c3Content > 350000 := by omega
  have hcontent : (savedItem c3Params "id-1".data "T0".data).documentContent
      = c3Content ++ truncMarker := by
    rw [savedItem_content c3Params _ _ _ hc, if_pos hsz,
      List.take_of_length_le (by rw [c3Content, List.length_replicate]; omega)]
  refine ⟨hsz, ?_, hcontent, ?_⟩
  · have hne : c3Content ≠ [] := by
      intro h
      have := congrArg List.length h
      rw [c3Content, List.length_replicate, List.length_nil] at this
      exact absurd this (by norm_num)
    rw [save_document_eq ⟨[]⟩ "g".data "saveDocument".data "1".data c3Params
      "id-1".data "T0".data rfl (by rw [hc]; exact truthy_some_ne hne)]
    rfl
  · rw [hcontent, utf8Len_append, hlen, utf8Len_truncMarker]
    norm_num

/-- C8 (confirmed): on every backend, a save whose `documentName` or
`documentContent` is missing or empty raises `ValueError` before any side
effect: the returned state is exactly the initial state, so no record and no
content is persisted. -/
theorem c8_validation_theorem :
    (∀ (st : DynamoState) (ag fn mv : List Char) (params : List Param)
        (id t : List Char),
      (¬ truthy (getParam params "documentName".data) = true ∨
       ¬ truthy (getParam params "documentContent".data) = true) →
      (DocInline.save_document st ag fn mv params id t).1 = st ∧
        isValidationError
          (DocInline.save_document st ag fn mv params id t).2 = true) ∧
    (∀ (meta : DocEfs.MetaState) (fs : DocEfs.FsState) (ag fn mv : List Char)
        (params : List Param) (id t : List Char) (metaFails : Bool),
      (¬ truthy (getParam params "documentName".data) = true ∨
       ¬ truthy (getParam params "documentContent".data) = true) →
      (DocEfs.save_document meta fs ag fn mv params id t metaFails).1
          = (meta, fs) ∧
        isValidationError
          (DocEfs.save_document meta fs ag fn mv params id t metaFails).2
          = true) ∧
    (∀ (st : DocMongo.MongoState) (ag fn mv : List Char) (params : List Param)
        (id : List Char) (now : Nat) (insertFails : Bool),
      (¬ truthy (getParam params "documentName".data) = true ∨
       ¬ truthy (getParam params "documentContent".data) = true) →
      (DocMongo.save_document st ag fn mv params id now insertFails).1 = st ∧
        isValidationError
          (DocMongo.save_document st ag fn mv params id now insertFails).2
          = true) := by
  refine ⟨?_, ?_, ?_⟩
  · intro st ag fn mv params id t h
    by_cases hb : truthy (getParam params "documentName".data) = true
    · have hbc : truthy (getParam params "documentContent".data) = false := by
        rcases h with h | h
        · exact absurd hb h
        · simpa using h
      constructor <;> simp [DocInline.save_document, hb, hbc, isValidationError]
    · have hb' : truthy (getParam params "documentName".data) = false := by
        simpa using hb
      constructor <;> simp [DocInline.save_document, hb', isValidationError]
  · intro meta fs ag fn mv params id t metaFails h
    have hcond : (!truthy (getParam params "documentName".data) ||
        !truthy (getParam params "documentContent".data)) = true := by
      rcases h with h | h <;> simp [(by simpa using h : _ = false)]
    constructor <;> simp [DocEfs.save_document, hcond, isValidationError]
  · intro st ag fn mv params id now insertFails h
    have hcond : (!truthy (getParam params "documentName".data) ||
        !truthy (getParam params "documentContent".data)) = true := by
      rcases h with h | h <;> simp [(by simpa using h : _ = false)]
    constructor <;> simp [DocMongo.save_document, hcond, isValidationError]

/-- Witness for C8: `save(name="x", content="")` on each backend leaves the
state unchanged and raises `ValueError`. -/
theorem c8_validation_witness :
    (¬ truthy (getParam [⟨"documentName".data, "x".data⟩,
        ⟨"documentContent".data, []⟩] "documentContent".data) = true) ∧
    ((DocInline.save_document ⟨[]⟩ "g".data "saveDocument".data "1".data
        [⟨"documentName".data, "x".data⟩, ⟨"documentContent".data, []⟩]
        "id-1".data "T0".data).1 = ⟨[]⟩ ∧
      isValidationError
        (DocInline.save_document ⟨[]⟩ "g".data "saveDocument".data "1".data
          [⟨"documentName".data, "x".data⟩, ⟨"documentContent".data, []⟩]
          "id-1".data "T0".data).2 = true) ∧
    ((DocEfs.save_document ⟨[]⟩ wFs "g".data "saveDocument".data "1".data
        [⟨"documentName".data, "x".data⟩, ⟨"documentContent".data, []⟩]
        "id-1".data "T0".data false).1 = (⟨[]⟩, wFs) ∧
      isValidationError
        (DocEfs.save_document ⟨[]⟩ wFs "g".data "saveDocument".data "1".data
          [⟨"documentName".data, "x".data⟩, ⟨"documentContent".data, []⟩]
          "id-1".data "T0".data false).2 = true) ∧
    ((DocMongo.save_document ⟨[], [], 0⟩ "g".data "saveDocument".data "1".data
        [⟨"documentName".data, "x".data⟩, ⟨"documentContent".data, []⟩]
        "id-1".data 7 false).1 = ⟨[], [], 0⟩ ∧
      isValidationError
        (DocMongo.save_document ⟨[], [], 0⟩ "g".data "saveDocument".data
          "1".data [⟨"documentName".data, "x".data⟩,
          ⟨"documentContent".data, []⟩] "id-1".data 7 false).2 = true) :=
  ⟨by decide,
   c8_validation_theorem.1 ⟨[]⟩ "g".data "saveDocument".data "1".data
     [⟨"documentName".data, "x".data⟩, ⟨"documentContent".data, []⟩]
     "id-1".data "T0".data (Or.inr (by decide)),
   c8_validation_theorem.2.1 ⟨[]⟩ wFs "g".data "saveDocument".data "1".data
     [⟨"documentName".data, "x".data⟩, ⟨"documentContent".data, []⟩]
     "id-1".data "T0".data false (Or.inr (by decide)),
   c8_validation_theorem.2.2 ⟨[], [], 0⟩ "g".data "saveDocument".data "1".data
     [⟨"documentName".data, "x".data⟩, ⟨"documentContent".data, []⟩]
     "id-1".data 7 false (Or.inr (by decide))⟩

/-- C9 (confirmed): on every backend, a get whose `documentId` matches no
stored record returns a normal success envelope whose text states the
document was not found; no exception is raised. -/
theorem c9_not_found_theorem :
    (∀ (st : DynamoState) (ag fn mv : List Char) (params : List Param)
        (id : List Char),
      getParam params "documentId".data = some id → id ≠ [] →
      DocInline.getItem st id = none →
      DocInline.get_document st ag fn mv params
        = (st, .ok (create_response ag fn mv
            ("Document with ID ".data ++ id ++ " not found".data)))) ∧
    (∀ (meta : DocEfs.MetaState) (fs : DocEfs.FsState) (ag fn mv : List Char)
        (params : List Param) (id : List Char),
      getParam params "documentId".data = some id → id ≠ [] →
      DocEfs.getItem meta id = none →
      DocEfs.get_document meta fs ag fn mv params
        = .ok (create_response ag fn mv
            ("Document with ID ".data ++ id ++ " not found".data))) ∧
    (∀ (st : DocMongo.MongoState) (ag fn mv : List Char) (params : List Param)
        (id : List Char),
      getParam params "documentId".data = some id → id ≠ [] →
      DocMongo.findOne st id = none →
      DocMongo.get_document st ag fn mv params
        = .ok (create_response ag fn mv
            ("Document with ID ".data ++ id ++ " not found".data))) := by
  refine ⟨?_, ?_, ?_⟩
  · intro st ag fn mv params id hid hne hlook
    unfold DocInline.get_document
    rw [hid]
    simp only [truthy_some_ne hne, Bool.not_true, Bool.false_eq_true, if_false,
      Option.getD_some, hlook]
  · intro meta fs ag fn mv params id hid hne hlook
    unfold DocEfs.get_document
    rw [hid]
    simp only [truthy_some_ne hne, Bool.not_true, Bool.false_eq_true, if_false,
      Option.getD_some, hlook]
  · intro st ag fn mv params id hid hne hlook
    unfold DocMongo.get_document
    rw [hid]
    simp only [truthy_some_ne hne, Bool.not_true, Bool.false_eq_true, if_false,
      Option.getD_some, hlook]

/-- Witness for C9: `get("nonexistent-id")` on each backend with an empty
store. -/
theorem c9_not_found_witness :
    DocInline.getItem ⟨[]⟩ "nonexistent-id".data = none ∧
    DocInline.get_document ⟨[]⟩ "g".data "getDocument".data "1".data
        [⟨"documentId".data, "nonexistent-id".data⟩]
      = (⟨[]⟩, .ok (create_response "g".data "getDocument".data "1".data
          ("Document with ID ".data ++ "nonexistent-id".data ++
            " not found".data))) ∧
    DocEfs.get_document ⟨[]⟩ wFs "g".data "getDocument".data "1".data
        [⟨"documentId".data, "nonexistent-id".data⟩]
      = .ok (create_response "g".data "getDocument".data "1".data
          ("Document with ID ".data ++ "nonexistent-id".data ++
            " not found".data)) ∧
    DocMongo.get_document ⟨[], [], 0⟩ "g".data "getDocument".data "1".data
        [⟨"documentId".data, "nonexistent-id".data⟩]
      = .ok (create_response "g".data "getDocument".data "1".data
          ("Document with ID ".data ++ "nonexistent-id".data ++
            " not found".data)) :=
  ⟨rfl,
   c9_not_found_theorem.1 ⟨[]⟩ "g".data "getDocument".data "1".data
     [⟨"documentId".data, "nonexistent-id".data⟩] "nonexistent-id".data rfl
     (by decide) rfl,
   c9_not_found_theorem.2.1 ⟨[]⟩ wFs "g".data "getDocument".data "1".data
     [⟨"documentId".data, "nonexistent-id".data⟩] "nonexistent-id".data rfl
     (by decide) rfl,
   c9_not_found_theorem.2.2 ⟨[], [], 0⟩ "g".data "getDocument".data "1".data
     [⟨"documentId".data, "nonexistent-id".data⟩] "nonexistent-id".data rfl
     (by decide) rfl⟩

/-- C5 (code bug in the inline backend): the inline `list_documents` scan
applies no `status` filter, so a record with `status = "deleted"` is listed;
the filesystem and blob-store backends do filter it out. -/
theorem c5_status_filter_code_bug :
    c5Item.status = "deleted".data ∧
    DocInline.filteredDocs ⟨[c5Item]⟩ none = [c5Item] ∧
    DocInline.list_documents ⟨[c5Item]⟩ "g".data "listDocuments".data "1".data []
      = (⟨[c5Item]⟩, .ok (create_response "g".data "listDocuments".data
          "1".data ("Found 1 document(s):\n".data ++ DocInline.listLine c5Item))) ∧
    DocEfs.filteredDocs ⟨[c5EfsItem]⟩ none = [] ∧
    DocEfs.list_documents ⟨[c5EfsItem]⟩ wFs "g".data "listDocuments".data
        "1".data []
      = .ok (create_response "g".data "listDocuments".data "1".data
          "No documents found matching the criteria".data) ∧
    DocMongo.filteredDocs ⟨[], [c5MongoDoc], 1⟩ none = [] ∧
    DocMongo.list_documents ⟨[], [c5MongoDoc], 1⟩ "g".data "listDocuments".data
        "1".data []
      = .ok (create_response "g".data "listDocuments".data "1".data
          "No documents found matching the criteria".data) := by
  exact ⟨rfl, rfl, rfl, rfl, rfl, rfl, rfl⟩

/-- Stable descending insertion preserves length. -/
theorem length_insertDesc (x : DocMongo.MongoDoc) (l : List DocMongo.MongoDoc) :
    (DocMongo.insertDesc x l).length = l.length + 1 := by
  induction l with
  | nil => rfl
  | cons y ys ih =>
    unfold DocMongo.insertDesc
    split <;> simp [ih]

/-- The sort of the blob-store listing preserves length. -/
theorem length_sortByDateDesc (l : List DocMongo.MongoDoc) :
    (DocMongo.sortByDateDesc l).length = l.length := by
  induction l with
  | nil => rfl
  | cons x xs ih =>
    unfold DocMongo.sortByDateDesc
    rw [length_insertDesc, ih, List.length_cons]

/-- C4 (amended): the inline and filesystem backends display at most 10
entries while reporting the full filtered count in the "Found N document(s)"
text; the blob-store backend applies `limit(10)` in the query itself, so the
count it reports is `min(full filtered count, 10)` — the size of the
displayed subset, not the full count. -/
theorem c4_count_amended :
    (∀ (st : DynamoState) (ag fn mv : List Char) (params : List Param),
      DocInline.filteredDocs st (getParam params "documentType".data) ≠ [] →
      DocInline.list_documents st ag fn mv params
          = (st, .ok (create_response ag fn mv
              ("Found ".data ++
                natToChars (DocInline.filteredDocs st
                  (getParam params "documentType".data)).length ++
                " document(s):\n".data ++
                (List.intersperse "\n".data
                  (((DocInline.filteredDocs st
                    (getParam params "documentType".data)).take 10).map
                    DocInline.listLine)).flatten))) ∧
        (((DocInline.filteredDocs st
            (getParam params "documentType".data)).take 10).length ≤ 10)) ∧
    (∀ (meta : DocEfs.MetaState) (fs : DocEfs.FsState) (ag fn mv : List Char)
        (params : List Param),
      DocEfs.filteredDocs meta (getParam params "documentType".data) ≠ [] →
      DocEfs.list_documents meta fs ag fn mv params
          = .ok (create_response ag fn mv
              ("Found ".data ++
                natToChars (DocEfs.filteredDocs meta
                  (getParam params "documentType".data)).length ++
                " document(s):\n".data ++
                (List.intersperse "\n".data
                  (((DocEfs.filteredDocs meta
                    (getParam params "documentType".data)).take 10).map
                    (DocEfs.listLine fs))).flatten)) ∧
        (((DocEfs.filteredDocs meta
            (getParam params "documentType".data)).take 10).length ≤ 10)) ∧
    (∀ (st : DocMongo.MongoState) (ag fn mv : List Char) (params : List Param),
      DocMongo.filteredDocs st (getParam params "documentType".data) ≠ [] →
      DocMongo.list_documents st ag fn mv params
          = .ok (create_response ag fn mv
              ("Found ".data ++
                natToChars (DocMongo.limitedDocs st
                  (getParam params "documentType".data)).length ++
                " document(s):\n".data ++
                (List.intersperse "\n".data
                  ((DocMongo.limitedDocs st
                    (getParam params "documentType".data)).map
                    DocMongo.listLine)).flatten)) ∧
        (DocMongo.limitedDocs st (getParam params "documentType".data)).length
          = min (DocMongo.filteredDocs st
              (getParam params "documentType".data)).length 10) := by
  refine ⟨?_, ?_, ?_⟩
  · intro st ag fn mv params hne
    constructor
    · unfold DocInline.list_documents
      rw [if_neg (by simpa [List.isEmpty_iff] using hne)]
    · exact le_trans (Nat.le_of_eq (List.length_take _ _)) (Nat.min_le_left _ _)
  · intro meta fs ag fn mv params hne
    constructor
    · unfold DocEfs.list_documents
      rw [if_neg (by simpa [List.isEmpty_iff] using hne)]
    · exact le_trans (Nat.le_of_eq (List.length_take _ _)) (Nat.min_le_left _ _)
  · intro st ag fn mv params hne
    have hmin : (DocMongo.limitedDocs st
        (getParam params "documentType".data)).length
        = min (DocMongo.filteredDocs st
            (getParam params "documentType".data)).length 10 := by
      unfold DocMongo.limitedDocs
      rw [List.length_take, length_sortByDateDesc, Nat.min_comm]
    refine ⟨?_, hmin⟩
    have hlim : DocMongo.limitedDocs st
        (getParam params "documentType".data) ≠ [] := by
      intro h
      have := congrArg List.length h
      rw [hmin, List.length_nil] at this
      have hz := Nat.eq_zero_of_le_zero (Nat.le_of_eq this)
      rcases Nat.min_eq_zero_iff.mp this with h1 | h1
      · exact hne (List.length_eq_zero.mp h1)
      · omega
    unfold DocMongo.list_documents
    rw [if_neg (by simpa [List.isEmpty_iff] using hlim)]

/-- Witness for C4: concrete listings on each backend (one inline record,
one filesystem record, eleven blob-store records). -/
theorem c4_count_witness :
    DocInline.filteredDocs ⟨[c5Item]⟩ (getParam [] "documentType".data) ≠ [] ∧
    (DocInline.list_documents ⟨[c5Item]⟩ "g".data "listDocuments".data
        "1".data []
        = (⟨[c5Item]⟩, .ok (create_response "g".data "listDocuments".data
            "1".data
            ("Found ".data ++
              natToChars (DocInline.filteredDocs ⟨[c5Item]⟩
                (getParam [] "documentType".data)).length ++
              " document(s):\n".data ++
              (List.intersperse "\n".data
                (((DocInline.filteredDocs ⟨[c5Item]⟩
                  (getParam [] "documentType".data)).take 10).map
                  DocInline.listLine)).flatten))) ∧
      ((DocInline.filteredDocs ⟨[c5Item]⟩
          (getParam [] "documentType".data)).take 10).length ≤ 10) ∧
    ((DocEfs.list_documents ⟨[wEfsItem]⟩ wFs "g".data "listDocuments".data
        "1".data []
        = .ok (create_response "g".data "listDocuments".data "1".data
            ("Found ".data ++
              natToChars (DocEfs.filteredDocs ⟨[wEfsItem]⟩
                (getParam [] "documentType".data)).length ++
              " document(s):\n".data ++
              (List.intersperse "\n".data
                (((DocEfs.filteredDocs ⟨[wEfsItem]⟩
                  (getParam [] "documentType".data)).take 10).map
                  (DocEfs.listLine wFs))).flatten))) ∧
      ((DocEfs.filteredDocs ⟨[wEfsItem]⟩
          (getParam [] "documentType".data)).take 10).length ≤ 10) ∧
    ((DocMongo.list_documents c4State "g".data "listDocuments".data "1".data []
        = .ok (create_response "g".data "listDocuments".data "1".data
            ("Found ".data ++
              natToChars (DocMongo.limitedDocs c4State
                (getParam [] "documentType".data)).length ++
              " document(s):\n".data ++
              (List.intersperse "\n".data
                ((DocMongo.limitedDocs c4State
                  (getParam [] "documentType".data)).map
                  DocMongo.listLine)).flatten))) ∧
      (DocMongo.limitedDocs c4State (getParam [] "documentType".data)).length
        = min (DocMongo.filteredDocs c4State
            (getParam [] "documentType".data)).length 10) :=
  ⟨by decide,
   c4_count_amended.1 ⟨[c5Item]⟩ "g".data "listDocuments".data "1".data []
     (by decide),
   c4_count_amended.2.1 ⟨[wEfsItem]⟩ wFs "g".data "listDocuments".data
     "1".data [] (by decide),
   c4_count_amended.2.2 c4State "g".data "listDocuments".data "1".data []
     (by decide)⟩

/-- C4, counterexample: with eleven active records the blob-store backend
reports "Found 10 document(s)", the displayed subset size, not the full
filtered count of eleven. -/
theorem c4_count_counterexample :
    (DocMongo.filteredDocs c4State none).length = 11 ∧
    (DocMongo.limitedDocs c4State none).length = 10 ∧
    DocMongo.list_documents c4State "g".data "listDocuments".data "1".data []
      = .ok (create_response "g".data "listDocuments".data "1".data
          ("Found 10 document(s):\n".data ++
            (List.intersperse "\n".data
              ((DocMongo.limitedDocs c4State none).map
                DocMongo.listLine)).flatten)) := by
  exact ⟨rfl, rfl, rfl⟩

/-- C7 (amended): every request whose handling fails returns a bare
`{statusCode, body}` pair with status 503 when the blob-store backend cannot
reach the store (reported before any dispatch) and status 500 for everything
else — including validation failures and unknown function names; status 400
is never produced. -/
theorem c7_error_status_amended :
    (∀ (st : DynamoState) (ev : DocInline.Event) (id t : List Char)
        (c : Nat) (b : List Char),
      (DocInline.lambda_handler st ev id t).2 = .httpError c b → c = 500) ∧
    (∀ (meta : DocEfs.MetaState) (fs : DocEfs.FsState) (ev : DocInline.Event)
        (id t : List Char) (metaFails : Bool) (c : Nat) (b : List Char),
      (DocEfs.lambda_handler meta fs ev id t metaFails).2 = .httpError c b →
      c = 500) ∧
    (∀ (st : DocMongo.MongoState) (ev : DocInline.Event) (id : List Char)
        (now : Nat) (insertFails : Bool),
      (DocMongo.lambda_handler st ev id now false insertFails).2
        = .httpError 503
            ("Database connection failed: ".data ++ DocMongo.connErrMsg)) ∧
    (∀ (st : DocMongo.MongoState) (ev : DocInline.Event) (id : List Char)
        (now : Nat) (insertFails : Bool) (c : Nat) (b : List Char),
      (DocMongo.lambda_handler st ev id now true insertFails).2
        = .httpError c b → c = 500) := by
  refine ⟨?_, ?_, ?_, ?_⟩
  · intro st ev id t c b h
    unfold DocInline.lambda_handler at h
    exact wrapRun_error_500 _ c b h
  · intro meta fs ev id t metaFails c b h
    unfold DocEfs.lambda_handler at h
    exact wrapRun_error_500 _ c b h
  · intro st ev id now insertFails
    rfl
  · intro st ev id now insertFails c b h
    unfold DocMongo.lambda_handler at h
    simp only [Bool.not_true, Bool.false_eq_true, if_false] at h
    exact wrapRun_error_500 _ c b h

/-- Witness for C7: an unknown-function request on each backend yields a bare
500 pair, and a blob-store request with an unreachable store yields a bare
503 pair. -/
theorem c7_error_status_witness :
    (DocInline.lambda_handler ⟨[]⟩ c7Event "id".data "T0".data).2
      = .httpError 500 ("Internal Server Error: ".data ++
          ("Unknown function: ".data ++ "badFunction".data)) ∧
    (500 : Nat) = 500 ∧
    (DocEfs.lambda_handler ⟨[]⟩ wFs c7Event "id".data "T0".data false).2
      = .httpError 500 ("Internal Server Error: ".data ++
          ("Unknown function: ".data ++ "badFunction".data)) ∧
    (500 : Nat) = 500 ∧
    (DocMongo.lambda_handler ⟨[], [], 0⟩ c7Event "id".data 7 false false).2
      = .httpError 503
          ("Database connection failed: ".data ++ DocMongo.connErrMsg) ∧
    (DocMongo.lambda_handler ⟨[], [], 0⟩ c7Event "id".data 7 true false).2
      = .httpError 500 ("Internal Server Error: ".data ++
          ("Unknown function: ".data ++ "badFunction".data)) ∧
    (500 : Nat) = 500 :=
  ⟨rfl,
   c7_error_status_amended.1 ⟨[]⟩ c7Event "id".data "T0".data 500
     ("Internal Server Error: ".data ++
       ("Unknown function: ".data ++ "badFunction".data)) rfl,
   rfl,
   c7_error_status_amended.2.1 ⟨[]⟩ wFs c7Event "id".data "T0".data false 500
     ("Internal Server Error: ".data ++
       ("Unknown function: ".data ++ "badFunction".data)) rfl,
   c7_error_status_amended.2.2.1 ⟨[], [], 0⟩ c7Event "id".data 7 false,
   rfl,
   c7_error_status_amended.2.2.2 ⟨[], [], 0⟩ c7Event "id".data 7 false 500
     ("Internal Server Error: ".data ++
       ("Unknown function: ".data ++ "badFunction".data)) rfl⟩

theorem savedItem_documentId (params : List Param) (id t : List Char) :
    (savedItem params id t).documentId = id := rfl

theorem savedItem_documentName (params : List Param) (id t name : List Char)
    (hn : getParam params "documentName".data = some name) :
    (savedItem params id t).documentName = name := by
  rw [savedItem, hn]; rfl

/-- The name, type, and content preview all occur in the body text the
inline `get_document` reports for a found document. -/
theorem inline_foundBody_infixes (d : DocInline.DocItem) :
    ("Name: ".data ++ d.documentName) <:+: DocInline.foundBody d ∧
    ("Type: ".data ++ d.documentType) <:+: DocInline.foundBody d ∧
    ("Content: ".data ++ DocInline.contentPreview d)
      <:+: DocInline.foundBody d := by
  have h1 : ("Document Found:\nName: ".data : List Char)
      = "Document Found:\n".data ++ "Name: ".data := by decide
  have h2 : ("\nType: ".data : List Char) = "\n".data ++ "Type: ".data := by
    decide
  have h3 : ("\nContent: ".data : List Char)
      = "\n".data ++ "Content: ".data := by decide
  unfold DocInline.foundBody
  rw [h1, h2, h3]
  refine ⟨⟨"Document Found:\n".data,
      "\n".data ++ "Type: ".data ++ d.documentType ++ "\nUpload Date: ".data ++
        d.uploadDate ++ "\nAnalysis: ".data ++ d.analysisResults ++
        "\n".data ++ "Content: ".data ++ DocInline.contentPreview d, ?_⟩,
    ⟨"Document Found:\n".data ++ "Name: ".data ++ d.documentName ++ "\n".data,
      "\nUpload Date: ".data ++ d.uploadDate ++ "\nAnalysis: ".data ++
        d.analysisResults ++ "\n".data ++ "Content: ".data ++
        DocInline.contentPreview d, ?_⟩,
    ⟨"Document Found:\n".data ++ "Name: ".data ++ d.documentName ++
        "\n".data ++ "Type: ".data ++ d.documentType ++
        "\nUpload Date: ".data ++ d.uploadDate ++ "\nAnalysis: ".data ++
        d.analysisResults ++ "\n".data, [], ?_⟩⟩ <;>
    simp only [List.append_assoc, List.append_nil]

/-- Text content that does not decode as base64 is stored as text on the
filesystem backend, and its preview is the first 200 characters. -/
theorem efs_filePreview_text (content : List Char)
    (hb : pyB64Decode? content = none) :
    DocEfs.filePreview (DocEfs.efsFileData content) = content.take 200 := by
  unfold DocEfs.efsFileData
  rw [hb]
  rfl

theorem efsSavedItem_documentId (params : List Param) (id t : List Char) :
    (DocEfs.efsSavedItem params id t).documentId = id := rfl

theorem efsSavedItem_documentName (params : List Param) (id t name : List Char)
    (hn : getParam params "documentName".data = some name) :
    (DocEfs.efsSavedItem params id t).documentName = name := by
  rw [DocEfs.efsSavedItem, hn]; rfl

theorem efsSavedItem_filePath (params : List Param) (id t name : List Char)
    (hn : getParam params "documentName".data = some name) :
    (DocEfs.efsSavedItem params id t).filePath
      = DocEfs.renderPath (DocEfs.efsFilePath id name) := by
  rw [DocEfs.efsSavedItem, hn]; rfl

/-- The file path of a save with simple id and name, as a structure. -/
theorem efsFilePath_eq (id name : List Char)
    (hid : DocEfs.parsePath id = ⟨false, [id]⟩)
    (hname : DocEfs.parsePath name = ⟨false, [name]⟩) :
    DocEfs.efsFilePath id name
      = ⟨true, DocEfs.mountPath.comps ++ [id, name]⟩ := by
  unfold DocEfs.efsFilePath DocEfs.PPath.joinStr
  rw [hid, hname]
  simp [DocEfs.PPath.join, show DocEfs.mountPath.absolute = true from rfl]

/-- Parsing the rendered file path of a save with simple id and name
recovers it exactly. -/
theorem efs_parse_render_filePath (id name : List Char)
    (hids : '/' ∉ id) (hidn : id ≠ []) (hidd : id ≠ ".".data)
    (hns : '/' ∉ name) (hne : name ≠ []) (hnd : name ≠ ".".data) :
    DocEfs.parsePath (DocEfs.renderPath (DocEfs.efsFilePath id name))
      = DocEfs.efsFilePath id name := by
  rw [efsFilePath_eq id name
    (DocEfs.parsePath_simple id hids hidn hidd)
    (DocEfs.parsePath_simple name hns hne hnd)]
  apply DocEfs.parsePath_renderPath
  · intro c hc
    rcases List.mem_append.mp hc with h | h
    · rw [DocEfs.mount_comps_eq] at h
      fin_cases h <;> refine ⟨by decide, by decide, by decide⟩
    · rcases List.mem_cons.mp h with h | h
      · exact h ▸ ⟨hids, hidn, hidd⟩
      · simp only [List.mem_singleton] at h
        exact h ▸ ⟨hns, hne, hnd⟩
  · simp

/-- The name, type, and content preview all occur in the body text the
filesystem `get_document` reports for a found document. -/
theorem efs_foundBody_infixes (d : DocEfs.EfsItem) (data : DocEfs.FileData) :
    ("Name: ".data ++ d.documentName) <:+: DocEfs.foundBody d data ∧
    ("Type: ".data ++ d.documentType) <:+: DocEfs.foundBody d data ∧
    ("Content Preview: ".data ++ DocEfs.filePreview data)
      <:+: DocEfs.foundBody d data := by
  have h1 : ("Document Found:\nName: ".data : List Char)
      = "Document Found:\n".data ++ "Name: ".data := by decide
  have h2 : ("\nType: ".data : List Char) = "\n".data ++ "Type: ".data := by
    decide
  have h3 : ("\nContent Preview: ".data : List Char)
      = "\n".data ++ "Content Preview: ".data := by decide
  unfold DocEfs.foundBody
  rw [h1, h2, h3]
  refine ⟨⟨"Document Found:\n".data,
      "\n".data ++ "Type: ".data ++ d.documentType ++ "\nUpload Date: ".data ++
        d.uploadDate.take 10 ++ "\nFile Size: ".data ++
        DocEfs.mbRender d.fileSize ++ " MB\nFile Path: ".data ++ d.filePath ++
        "\nAnalysis: ".data ++ d.analysisResults ++ "\n".data ++
        "Content Preview: ".data ++ DocEfs.filePreview data ++
        (if d.fileSize > 200 then "...".data else []), ?_⟩,
    ⟨"Document Found:\n".data ++ "Name: ".data ++ d.documentName ++ "\n".data,
      "\nUpload Date: ".data ++ d.uploadDate.take 10 ++ "\nFile Size: ".data ++
        DocEfs.mbRender d.fileSize ++ " MB\nFile Path: ".data ++ d.filePath ++
        "\nAnalysis: ".data ++ d.analysisResults ++ "\n".data ++
        "Content Preview: ".data ++ DocEfs.filePreview data ++
        (if d.fileSize > 200 then "...".data else []), ?_⟩,
    ⟨"Document Found:\n".data ++ "Name: ".data ++ d.documentName ++
        "\n".data ++ "Type: ".data ++ d.documentType ++
        "\nUpload Date: ".data ++ d.uploadDate.take 10 ++
        "\nFile Size: ".data ++ DocEfs.mbRender d.fileSize ++
        " MB\nFile Path: ".data ++ d.filePath ++ "\nAnalysis: ".data ++
        d.analysisResults ++ "\n".data,
      (if d.fileSize > 200 then "...".data else []), ?_⟩⟩ <;>
    simp only [List.append_assoc, List.append_nil]

/-- Content that does not decode as base64 is stored UTF-8-encoded in
GridFS, and for ASCII content the preview of its first 200 bytes decodes to
its first 200 characters. -/
theorem mongo_blobPreview_ascii (content : List Char)
    (hb : pyB64Decode? content = none) (ha : ∀ c ∈ content, c.toNat < 128) :
    DocMongo.blobPreview (DocMongo.mongoFileData content)
      = content.take 200 := by
  unfold DocMongo.blobPreview DocMongo.mongoFileData
  rw [hb]
  rw [utf8Decode_encode_take_ascii content 200 ha]

theorem savedDoc_documentId (params : List Param) (id : List Char)
    (now fid : Nat) :
    (DocMongo.savedDoc params id now fid).documentId = id := rfl

theorem savedDoc_documentName (params : List Param) (id : List Char)
    (now fid : Nat) (name : List Char)
    (hn : getParam params "documentName".data = some name) :
    (DocMongo.savedDoc params id now fid).documentName = name := by
  rw [DocMongo.savedDoc, hn]; rfl

/-- `find_one` over the metadata collection finds a freshly appended record
whose id no earlier record carries. -/
theorem findOne_append_fresh (g : List (Nat × DocMongo.GridFile))
    (docs : List DocMongo.MongoDoc) (n : Nat) (d : DocMongo.MongoDoc)
    (hfresh : ∀ x ∈ docs, x.documentId ≠ d.documentId) :
    DocMongo.findOne ⟨g, docs ++ [d], n⟩ d.documentId = some d := by
  unfold DocMongo.findOne
  exact find?_append_fresh _ _ _
    (fun x hx => by simpa using hfresh x hx) (by simp)

/-- The name, type, and content preview all occur in the body text the
blob-store `get_document` reports for a found document. -/
theorem mongo_foundBody_infixes (d : DocMongo.MongoDoc)
    (file : DocMongo.GridFile) :
    ("Name: ".data ++ d.documentName) <:+: DocMongo.foundBody d file ∧
    ("Type: ".data ++ d.documentType) <:+: DocMongo.foundBody d file ∧
    ("Content Preview: ".data ++ DocMongo.blobPreview file.data)
      <:+: DocMongo.foundBody d file := by
  have h1 : ("Document Found:\nName: ".data : List Char)
      = "Document Found:\n".data ++ "Name: ".data := by decide
  have h2 : ("\nType: ".data : List Char) = "\n".data ++ "Type: ".data := by
    decide
  have h3 : ("\nContent Preview: ".data : List Char)
      = "\n".data ++ "Content Preview: ".data := by decide
  unfold DocMongo.foundBody
  rw [h1, h2, h3]
  refine ⟨⟨"Document Found:\n".data,
      "\n".data ++ "Type: ".data ++ d.documentType ++ "\nUpload Date: ".data ++
        DocMongo.strftimeFull d.uploadDate ++ "\nFile Size: ".data ++
        natToChars d.fileSize ++ " bytes\nAnalysis: ".data ++
        d.analysisResults ++ "\n".data ++ "Content Preview: ".data ++
        DocMongo.blobPreview file.data ++
        (if d.fileSize > 200 then "...".data else []), ?_⟩,
    ⟨"Document Found:\n".data ++ "Name: ".data ++ d.documentName ++ "\n".data,
      "\nUpload Date: ".data ++ DocMongo.strftimeFull d.uploadDate ++
        "\nFile Size: ".data ++ natToChars d.fileSize ++
        " bytes\nAnalysis: ".data ++ d.analysisResults ++ "\n".data ++
        "Content Preview: ".data ++ DocMongo.blobPreview file.data ++
        (if d.fileSize > 200 then "...".data else []), ?_⟩,
    ⟨"Document Found:\n".data ++ "Name: ".data ++ d.documentName ++
        "\n".data ++ "Type: ".data ++ d.documentType ++
        "\nUpload Date: ".data ++ DocMongo.strftimeFull d.uploadDate ++
        "\nFile Size: ".data ++ natToChars d.fileSize ++
        " bytes\nAnalysis: ".data ++ d.analysisResults ++ "\n".data,
      (if d.fileSize > 200 then "...".data else []), ?_⟩⟩ <;>
    simp only [List.append_assoc, List.append_nil]

/-- C2 (amended): when the metadata write fails after the content write
succeeded, the filesystem backend deletes the just-written file and the
now-empty per-document directory before propagating the failure — the state
is restored exactly; the blob-store backend performs NO deletion and leaves
the GridFS blob orphaned, but no metadata record references the orphan and
every subsequent get and list behaves exactly as before the failed save,
since both consult only the metadata collection. -/
theorem c2_cleanup_amended :
    (∀ (meta : DocEfs.MetaState) (fs : DocEfs.FsState) (ag fn mv : List Char)
        (params : List Param) (id t name content : List Char),
      getParam params "documentName".data = some name → name ≠ [] →
      getParam params "documentContent".data = some content → content ≠ [] →
      '/' ∉ id → id ≠ [] → id ≠ ".".data → id ≠ "..".data →
      '/' ∉ name → name ≠ ".".data → name ≠ "..".data →
      (∀ p ∈ DocEfs.mountPrefixes, p ∈ fs.dirs) →
      (∀ d ∈ fs.dirs, ¬ DocEfs.mountPath.comps ++ [id] <+: d) →
      (∀ f ∈ fs.files, ¬ DocEfs.mountPath.comps ++ [id] <+: f.1) →
      DocEfs.save_document meta fs ag fn mv params id t true
        = ((meta, fs),
           .error (.exception
             ("Error saving document: ".data ++ DocEfs.putItemErrMsg)))) ∧
    (∀ (st : DocMongo.MongoState) (ag fn mv : List Char) (params : List Param)
        (id : List Char) (now : Nat) (name content : List Char),
      getParam params "documentName".data = some name → name ≠ [] →
      getParam params "documentContent".data = some content → content ≠ [] →
      (∀ d ∈ st.documents, d.gridfsFileId ≠ st.nextFileId) →
      (DocMongo.save_document st ag fn mv params id now true).1.documents
          = st.documents ∧
        (DocMongo.save_document st ag fn mv params id now true).1.gridfs
          = st.gridfs ++ [(st.nextFileId, DocMongo.savedGridFile params id now)] ∧
        (DocMongo.save_document st ag fn mv params id now true).2
          = .error (.exception DocMongo.insertErrMsg) ∧
        (∀ params2 : List Param,
          DocMongo.get_document
            (DocMongo.save_document st ag fn mv params id now true).1
            ag fn mv params2 = DocMongo.get_document st ag fn mv params2) ∧
        (∀ params2 : List Param,
          DocMongo.list_documents
            (DocMongo.save_document st ag fn mv params id now true).1
            ag fn mv params2 = DocMongo.list_documents st ag fn mv params2)) := by
  constructor
  · intro meta fs ag fn mv params id t name content hn hne hc hce
      hids hidn hidd hidd2 hns hnd hnd2 hm hdd hfd
    have hidp := DocEfs.parsePath_simple id hids hidn hidd
    have hnamep := DocEfs.parsePath_simple name hns hne hnd
    have hdirfresh : DocEfs.mountPath.comps ++ [id] ∉ fs.dirs := by
      intro hmem
      exact hdd _ hmem (List.prefix_refl _)
    have htfresh : DocEfs.mountPath.comps ++ [id, name] ∉ fs.dirs := by
      intro hmem
      exact hdd _ hmem ⟨[name], by simp⟩
    have hopen := DocEfs.efs_canOpenWrite fs id name hidp hidd2 hnamep hnd2
      hm hdirfresh htfresh
    rw [DocEfs.efs_save_metaFail_eq meta fs ag fn mv params id t name content
      hn hne hc hce hopen]
    have hclean :
        DocEfs.cleanup
          ((fs.mkdirParents
            (DocEfs.resolveComps (DocEfs.efsDocDir id).comps)).writeFile
            (DocEfs.resolveComps (DocEfs.efsFilePath id name).comps)
            (DocEfs.efsFileData content))
          (DocEfs.resolveComps (DocEfs.efsFilePath id name).comps)
          (DocEfs.resolveComps (DocEfs.efsDocDir id).comps) = fs := by
      rw [DocEfs.efsDocDir_resolved id hidp hidd2,
        DocEfs.efsFilePath_resolved id name hidp hidd2 hnamep hnd2,
        DocEfs.efs_mkdir_eq fs id hm hdirfresh]
      exact DocEfs.cleanup_restores fs _ _ _ hfd hdd ⟨[name], by simp⟩
    rw [hclean]
  · intro st ag fn mv params id now name content hn hne hc hce hfresh
    rw [DocMongo.mongo_save_insertFail_eq st ag fn mv params id now name
      content hn hne hc hce]
    refine ⟨rfl, rfl, rfl, ?_, ?_⟩
    · intro params2
      exact DocMongo.mongo_get_unaffected st
        (DocMongo.savedGridFile params id now) ag fn mv params2 hfresh
    · intro params2
      exact DocMongo.mongo_list_unaffected st
        (DocMongo.savedGridFile params id now) ag fn mv params2

/-- Witness for C2: a failing metadata write after saving `"Hi, Bob."` on the
filesystem backend (state restored exactly) and on the blob-store backend
(orphan blob kept, gets and lists unchanged). -/
theorem c2_cleanup_witness :
    (∀ p ∈ DocEfs.mountPrefixes, p ∈ wFs.dirs) ∧
    DocEfs.save_document ⟨[]⟩ wFs "g".data "saveDocument".data "1".data
        wParams "id-1".data "T0".data true
      = ((⟨[]⟩, wFs),
         .error (.exception
           ("Error saving document: ".data ++ DocEfs.putItemErrMsg))) ∧
    ((DocMongo.save_document ⟨[], [], 0⟩ "g".data "saveDocument".data "1".data
        wParams "id-1".data 7 true).1.documents = [] ∧
      (DocMongo.save_document ⟨[], [], 0⟩ "g".data "saveDocument".data
        "1".data wParams "id-1".data 7 true).1.gridfs
        = [] ++ [(0, DocMongo.savedGridFile wParams "id-1".data 7)] ∧
      (DocMongo.save_document ⟨[], [], 0⟩ "g".data "saveDocument".data
        "1".data wParams "id-1".data 7 true).2
        = .error (.exception DocMongo.insertErrMsg) ∧
      (∀ params2 : List Param,
        DocMongo.get_document
          (DocMongo.save_document ⟨[], [], 0⟩ "g".data "saveDocument".data
            "1".data wParams "id-1".data 7 true).1
          "g".data "saveDocument".data "1".data params2
          = DocMongo.get_document ⟨[], [], 0⟩ "g".data "saveDocument".data
              "1".data params2) ∧
      (∀ params2 : List Param,
        DocMongo.list_documents
          (DocMongo.save_document ⟨[], [], 0⟩ "g".data "saveDocument".data
            "1".data wParams "id-1".data 7 true).1
          "g".data "saveDocument".data "1".data params2
          = DocMongo.list_documents ⟨[], [], 0⟩ "g".data "saveDocument".data
              "1".data params2)) :=
  ⟨by decide,
   c2_cleanup_amended.1 ⟨[]⟩ wFs "g".data "saveDocument".data "1".data wParams
     "id-1".data "T0".data "a.txt".data "Hi, Bob.".data rfl (by decide) rfl
     (by decide) (by decide) (by decide) (by decide) (by decide) (by decide)
     (by decide) (by decide) (by decide) (by decide) (by decide),
   c2_cleanup_amended.2 ⟨[], [], 0⟩ "g".data "saveDocument".data "1".data
     wParams "id-1".data 7 "a.txt".data "Hi, Bob.".data rfl (by decide) rfl
     (by decide) (by decide)⟩

/-- C2, counterexample: on the blob-store backend a failed metadata insert
propagates the error while the just-written GridFS blob (the non-empty byte
content) remains stored — the operation performs no deletion. -/
theorem c2_cleanup_counterexample :
    (DocMongo.save_document ⟨[], [], 0⟩ "g".data "saveDocument".data "1".data
        wParams "id-1".data 7 true).1.gridfs
      = [(0, DocMongo.savedGridFile wParams "id-1".data 7)] ∧
    (DocMongo.save_document ⟨[], [], 0⟩ "g".data "saveDocument".data "1".data
        wParams "id-1".data 7 true).1.documents = [] ∧
    (DocMongo.save_document ⟨[], [], 0⟩ "g".data "saveDocument".data "1".data
        wParams "id-1".data 7 true).2
      = .error (.exception DocMongo.insertErrMsg) ∧
    (DocMongo.savedGridFile wParams "id-1".data 7).data ≠ [] := by
  refine ⟨rfl, rfl, rfl, ?_⟩
  decide

/-- C6 (amended): after a valid save, a get with the generated id reports
the saved name and type and a content preview; for the inline backend the
preview is always a prefix of the (possibly truncated) content, while for
the filesystem and blob-store backends this holds provided the content does
not successfully decode as base64 (otherwise the stored bytes are the
decoded binary, not the text) and, for the blob-store backend, the content
is ASCII (its preview decodes the first 200 stored bytes). -/
theorem c6_roundtrip_amended :
    (∀ (st : DynamoState) (ag fn mv ag2 fn2 mv2 : List Char)
        (params : List Param) (id t name content : List Char),
      getParam params "documentName".data = some name → name ≠ [] →
      getParam params "documentContent".data = some content → content ≠ [] →
      id ≠ [] →
      (DocInline.get_document (DocInline.save_document st ag fn mv params
          id t).1 ag2 fn2 mv2 [⟨"documentId".data, id⟩]).2
          = .ok (create_response ag2 fn2 mv2
              (DocInline.foundBody (savedItem params id t))) ∧
        (savedItem params id t).documentName = name ∧
        ("Name: ".data ++ name) <:+: DocInline.foundBody (savedItem params id t) ∧
        ("Type: ".data ++ (savedItem params id t).documentType)
          <:+: DocInline.foundBody (savedItem params id t) ∧
        ("Content: ".data ++ DocInline.contentPreview (savedItem params id t))
          <:+: DocInline.foundBody (savedItem params id t) ∧
        (savedItem params id t).documentContent.take 200
          <+: (if utf8Len content > 350000 then
              content.take 350000 ++ truncMarker else content)) ∧
    (∀ (meta : DocEfs.MetaState) (fs : DocEfs.FsState)
        (ag fn mv ag2 fn2 mv2 : List Char) (params : List Param)
        (id t name content : List Char),
      getParam params "documentName".data = some name → name ≠ [] →
      getParam params "documentContent".data = some content → content ≠ [] →
      pyB64Decode? content = none →
      '/' ∉ id → id ≠ [] → id ≠ ".".data → id ≠ "..".data →
      '/' ∉ name → name ≠ ".".data → name ≠ "..".data →
      (∀ p ∈ DocEfs.mountPrefixes, p ∈ fs.dirs) →
      (∀ d ∈ fs.dirs, ¬ DocEfs.mountPath.comps ++ [id] <+: d) →
      DocEfs.get_document
          (DocEfs.save_document meta fs ag fn mv params id t false).1.1
          (DocEfs.save_document meta fs ag fn mv params id t false).1.2
          ag2 fn2 mv2 [⟨"documentId".data, id⟩]
          = .ok (create_response ag2 fn2 mv2
              (DocEfs.foundBody (DocEfs.efsSavedItem params id t)
                (DocEfs.efsFileData content))) ∧
        (DocEfs.efsSavedItem params id t).documentName = name ∧
        ("Name: ".data ++ name)
          <:+: DocEfs.foundBody (DocEfs.efsSavedItem params id t)
            (DocEfs.efsFileData content) ∧
        ("Type: ".data ++ (DocEfs.efsSavedItem params id t).documentType)
          <:+: DocEfs.foundBody (DocEfs.efsSavedItem params id t)
            (DocEfs.efsFileData content) ∧
        ("Content Preview: ".data ++
            DocEfs.filePreview (DocEfs.efsFileData content))
          <:+: DocEfs.foundBody (DocEfs.efsSavedItem params id t)
            (DocEfs.efsFileData content) ∧
        DocEfs.filePreview (DocEfs.efsFileData content) <+: content) ∧
    (∀ (st : DocMongo.MongoState) (ag fn mv ag2 fn2 mv2 : List Char)
        (params : List Param) (id : List Char) (now : Nat)
        (name content : List Char),
      getParam params "documentName".data = some name → name ≠ [] →
      getParam params "documentContent".data = some content → content ≠ [] →
      pyB64Decode? content = none → (∀ c ∈ content, c.toNat < 128) →
      (∀ d ∈ st.documents, d.documentId ≠ id) →
      (∀ p ∈ st.gridfs, p.1 ≠ st.nextFileId) →
      id ≠ [] →
      DocMongo.get_document
          (DocMongo.save_document st ag fn mv params id now false).1
          ag2 fn2 mv2 [⟨"documentId".data, id⟩]
          = .ok (create_response ag2 fn2 mv2
              (DocMongo.foundBody (DocMongo.savedDoc params id now st.nextFileId)
                (DocMongo.savedGridFile params id now))) ∧
        (DocMongo.savedDoc params id now st.nextFileId).documentName = name ∧
        ("Name: ".data ++ name)
          <:+: DocMongo.foundBody (DocMongo.savedDoc params id now st.nextFileId)
            (DocMongo.savedGridFile params id now) ∧
        ("Type: ".data ++
            (DocMongo.savedDoc params id now st.nextFileId).documentType)
          <:+: DocMongo.foundBody (DocMongo.savedDoc params id now st.nextFileId)
            (DocMongo.savedGridFile params id now) ∧
        ("Content Preview: ".data ++
            DocMongo.blobPreview (DocMongo.savedGridFile params id now).data)
          <:+: DocMongo.foundBody (DocMongo.savedDoc params id now st.nextFileId)
            (DocMongo.savedGridFile params id now) ∧
        DocMongo.blobPreview (DocMongo.savedGridFile params id now).data
          <+: content) := by
  refine ⟨?_, ?_, ?_⟩
  · intro st ag fn mv ag2 fn2 mv2 params id t name content hn hne hc hce hidne
    have hnt : truthy (getParam params "documentName".data) = true := by
      rw [hn]; exact truthy_some_ne hne
    have hct : truthy (getParam params "documentContent".data) = true := by
      rw [hc]; exact truthy_some_ne hce
    refine ⟨?_, savedItem_documentName params id t name hn, ?_, ?_, ?_, ?_⟩
    · rw [save_document_eq st ag fn mv params id t hnt hct]
      unfold DocInline.get_document
      rw [show getParam [⟨"documentId".data, id⟩] "documentId".data = some id
        from rfl]
      simp only [truthy_some_ne hidne, Bool.not_true, Bool.false_eq_true,
        if_false, Option.getD_some]
      rw [show DocInline.getItem
          (DocInline.putItem st (savedItem params id t)) id
          = some (savedItem params id t) from by
        have h := getItem_putItem st (savedItem params id t)
        rw [savedItem_documentId] at h
        exact h]
    · have h := (inline_foundBody_infixes (savedItem params id t)).1
      rw [savedItem_documentName params id t name hn] at h
      exact h
    · exact (inline_foundBody_infixes (savedItem params id t)).2.1
    · exact (inline_foundBody_infixes (savedItem params id t)).2.2
    · rw [savedItem_content params id t content hc]
      exact List.take_prefix _ _
  · intro meta fs ag fn mv ag2 fn2 mv2 params id t name content hn hne hc hce
      hb hids hidn hidd hidd2 hns hnd hnd2 hm hdd
    have hidp := DocEfs.parsePath_simple id hids hidn hidd
    have hnamep := DocEfs.parsePath_simple name hns hne hnd
    have hdirfresh : DocEfs.mountPath.comps ++ [id] ∉ fs.dirs := by
      intro hmem
      exact hdd _ hmem (List.prefix_refl _)
    have htfresh : DocEfs.mountPath.comps ++ [id, name] ∉ fs.dirs := by
      intro hmem
      exact hdd _ hmem ⟨[name], by simp⟩
    have hopen := DocEfs.efs_canOpenWrite fs id name hidp hidd2 hnamep hnd2
      hm hdirfresh htfresh
    have hprev : DocEfs.filePreview (DocEfs.efsFileData content)
        = content.take 200 := efs_filePreview_text content hb
    refine ⟨?_, efsSavedItem_documentName params id t name hn, ?_, ?_, ?_, ?_⟩
    · rw [DocEfs.efs_save_eq meta fs ag fn mv params id t name content
        hn hne hc hce hopen]
      unfold DocEfs.get_document
      rw [show getParam [⟨"documentId".data, id⟩] "documentId".data = some id
        from rfl]
      simp only [truthy_some_ne hidn, Bool.not_true, Bool.false_eq_true,
        if_false, Option.getD_some]
      rw [show DocEfs.getItem
          (DocEfs.putItem meta (DocEfs.efsSavedItem params id t)) id
          = some (DocEfs.efsSavedItem params id t) from by
        have h := DocEfs.efs_getItem_putItem meta (DocEfs.efsSavedItem params id t)
        rw [efsSavedItem_documentId] at h
        exact h]
      dsimp only
      rw [efsSavedItem_filePath params id t name hn,
        efs_parse_render_filePath id name hids hidn hidd hns hne hnd]
      rw [DocEfs.fileAt_writeFile]
    · have h := (efs_foundBody_infixes (DocEfs.efsSavedItem params id t)
        (DocEfs.efsFileData content)).1
      rw [efsSavedItem_documentName params id t name hn] at h
      exact h
    · exact (efs_foundBody_infixes _ _).2.1
    · exact (efs_foundBody_infixes _ _).2.2
    · rw [hprev]
      exact List.take_prefix _ _
  · intro st ag fn mv ag2 fn2 mv2 params id now name content hn hne hc hce
      hb ha hidfresh hgfresh hidne
    have hprev : DocMongo.blobPreview (DocMongo.savedGridFile params id now).data
        = content.take 200 := by
      rw [DocMongo.savedGridFile_data params id now content hc]
      exact mongo_blobPreview_ascii content hb ha
    refine ⟨?_, savedDoc_documentName params id now st.nextFileId name hn,
      ?_, ?_, ?_, ?_⟩
    · rw [DocMongo.mongo_save_eq st ag fn mv params id now name content
        hn hne hc hce]
      unfold DocMongo.get_document
      rw [show getParam [⟨"documentId".data, id⟩] "documentId".data = some id
        from rfl]
      simp only [truthy_some_ne hidne, Bool.not_true, Bool.false_eq_true,
        if_false, Option.getD_some]
      rw [show DocMongo.findOne
          ⟨st.gridfs ++ [(st.nextFileId, DocMongo.savedGridFile params id now)],
            st.documents ++ [DocMongo.savedDoc params id now st.nextFileId],
            st.nextFileId + 1⟩ id
          = some (DocMongo.savedDoc params id now st.nextFileId) from by
        have h := findOne_append_fresh
          (st.gridfs ++ [(st.nextFileId, DocMongo.savedGridFile params id now)])
          st.documents (st.nextFileId + 1)
          (DocMongo.savedDoc params id now st.nextFileId)
          (fun x hx => by
            rw [savedDoc_documentId]
            exact hidfresh x hx)
        rw [savedDoc_documentId] at h
        exact h]
      dsimp only
      rw [show DocMongo.gridGet
          ⟨st.gridfs ++ [(st.nextFileId, DocMongo.savedGridFile params id now)],
            st.documents ++ [DocMongo.savedDoc params id now st.nextFileId],
            st.nextFileId + 1⟩
          (DocMongo.savedDoc params id now st.nextFileId).gridfsFileId
          = some (DocMongo.savedGridFile params id now) from by
        rw [DocMongo.savedDoc_gridfsFileId]
        exact DocMongo.gridGet_append_fresh st.gridfs _ _ _ _ hgfresh]
    · have h := (mongo_foundBody_infixes
        (DocMongo.savedDoc params id now st.nextFileId)
        (DocMongo.savedGridFile params id now)).1
      rw [savedDoc_documentName params id now st.nextFileId name hn] at h
      exact h
    · exact (mongo_foundBody_infixes _ _).2.1
    · exact (mongo_foundBody_infixes _ _).2.2
    · rw [hprev]
      exact List.take_prefix _ _

/-- Witness for C6: save-then-get of `"Hi, Bob."` under the name `"a.txt"`
on each backend. -/
theorem c6_roundtrip_witness :
    pyB64Decode? "Hi, Bob.".data = none ∧
    ((DocInline.get_document (DocInline.save_document ⟨[]⟩ "g".data
          "saveDocument".data "1".data wParams "id-1".data "T0".data).1
          "g".data "getDocument".data "1".data
          [⟨"documentId".data, "id-1".data⟩]).2
        = .ok (create_response "g".data "getDocument".data "1".data
            (DocInline.foundBody (savedItem wParams "id-1".data "T0".data))) ∧
      (savedItem wParams "id-1".data "T0".data).documentName = "a.txt".data ∧
      ("Name: ".data ++ "a.txt".data)
        <:+: DocInline.foundBody (savedItem wParams "id-1".data "T0".data) ∧
      ("Type: ".data ++ (savedItem wParams "id-1".data "T0".data).documentType)
        <:+: DocInline.foundBody (savedItem wParams "id-1".data "T0".data) ∧
      ("Content: ".data ++
          DocInline.contentPreview (savedItem wParams "id-1".data "T0".data))
        <:+: DocInline.foundBody (savedItem wParams "id-1".data "T0".data) ∧
      (savedItem wParams "id-1".data "T0".data).documentContent.take 200
        <+: (if utf8Len "Hi, Bob.".data > 350000 then
            "Hi, Bob.".data.take 350000 ++ truncMarker else "Hi, Bob.".data)) ∧
    (DocEfs.get_document
        (DocEfs.save_document ⟨[]⟩ wFs "g".data "saveDocument".data "1".data
          wParams "id-1".data "T0".data false).1.1
        (DocEfs.save_document ⟨[]⟩ wFs "g".data "saveDocument".data "1".data
          wParams "id-1".data "T0".data false).1.2
        "g".data "getDocument".data "1".data
        [⟨"documentId".data, "id-1".data⟩]
        = .ok (create_response "g".data "getDocument".data "1".data
            (DocEfs.foundBody (DocEfs.efsSavedItem wParams "id-1".data "T0".data)
              (DocEfs.efsFileData "Hi, Bob.".data))) ∧
      (DocEfs.efsSavedItem wParams "id-1".data "T0".data).documentName
        = "a.txt".data ∧
      ("Name: ".data ++ "a.txt".data)
        <:+: DocEfs.foundBody (DocEfs.efsSavedItem wParams "id-1".data "T0".data)
          (DocEfs.efsFileData "Hi, Bob.".data) ∧
      ("Type: ".data ++
          (DocEfs.efsSavedItem wParams "id-1".data "T0".data).documentType)
        <:+: DocEfs.foundBody (DocEfs.efsSavedItem wParams "id-1".data "T0".data)
          (DocEfs.efsFileData "Hi, Bob.".data) ∧
      ("Content Preview: ".data ++
          DocEfs.filePreview (DocEfs.efsFileData "Hi, Bob.".data))
        <:+: DocEfs.foundBody (DocEfs.efsSavedItem wParams "id-1".data "T0".data)
          (DocEfs.efsFileData "Hi, Bob.".data) ∧
      DocEfs.filePreview (DocEfs.efsFileData "Hi, Bob.".data)
        <+: "Hi, Bob.".data) ∧
    (DocMongo.get_document
        (DocMongo.save_document ⟨[], [], 0⟩ "g".data "saveDocument".data
          "1".data wParams "id-1".data 7 false).1
        "g".data "getDocument".data "1".data
        [⟨"documentId".data, "id-1".data⟩]
        = .ok (create_response "g".data "getDocument".data "1".data
            (DocMongo.foundBody (DocMongo.savedDoc wParams "id-1".data 7 0)
              (DocMongo.savedGridFile wParams "id-1".data 7))) ∧
      (DocMongo.savedDoc wParams "id-1".data 7 0).documentName = "a.txt".data ∧
      ("Name: ".data ++ "a.txt".data)
        <:+: DocMongo.foundBody (DocMongo.savedDoc wParams "id-1".data 7 0)
          (DocMongo.savedGridFile wParams "id-1".data 7) ∧
      ("Type: ".data ++ (DocMongo.savedDoc wParams "id-1".data 7 0).documentType)
        <:+: DocMongo.foundBody (DocMongo.savedDoc wParams "id-1".data 7 0)
          (DocMongo.savedGridFile wParams "id-1".data 7) ∧
      ("Content Preview: ".data ++
          DocMongo.blobPreview (DocMongo.savedGridFile wParams "id-1".data 7).data)
        <:+: DocMongo.foundBody (DocMongo.savedDoc wParams "id-1".data 7 0)
          (DocMongo.savedGridFile wParams "id-1".data 7) ∧
      DocMongo.blobPreview (DocMongo.savedGridFile wParams "id-1".data 7).data
        <+: "Hi, Bob.".data) :=
  ⟨by decide,
   c6_roundtrip_amended.1 ⟨[]⟩ "g".data "saveDocument".data "1".data
     "g".data "getDocument".data "1".data wParams "id-1".data "T0".data
     "a.txt".data "Hi, Bob.".data rfl (by decide) rfl (by decide) (by decide),
   c6_roundtrip_amended.2.1 ⟨[]⟩ wFs "g".data "saveDocument".data "1".data
     "g".data "getDocument".data "1".data wParams "id-1".data "T0".data
     "a.txt".data "Hi, Bob.".data rfl (by decide) rfl (by decide) (by decide)
     (by decide) (by decide) (by decide) (by decide) (by decide) (by decide)
     (by decide) (by decide) (by decide),
   c6_roundtrip_amended.2.2 ⟨[], [], 0⟩ "g".data "saveDocument".data "1".data
     "g".data "getDocument".data "1".data wParams "id-1".data 7
     "a.txt".data "Hi, Bob.".data rfl (by decide) rfl (by decide) (by decide)
     (by decide) (by decide) (by decide) (by decide)⟩

/-- C6, counterexample: the content `"abcd"` is valid base64, so the
filesystem backend base64-decodes it and stores the three bytes
`[105, 183, 29]`; a subsequent get cannot decode them as UTF-8 and reports
the binary-file marker as the preview, which is not a prefix of `"abcd"`. -/
theorem c6_roundtrip_counterexample :
    pyB64Decode? "abcd".data = some [105, 183, 29] ∧
    (DocEfs.save_document ⟨[]⟩ wFs "g".data "saveDocument".data "1".data
        c6Params "id-1".data "T0".data false).2
      = .ok (create_response "g".data "saveDocument".data "1".data
          ("Document \"".data ++ "doc.bin".data ++
            "\" saved successfully with ID: ".data ++ "id-1".data)) ∧
    DocEfs.get_document
        (DocEfs.save_document ⟨[]⟩ wFs "g".data "saveDocument".data "1".data
          c6Params "id-1".data "T0".data false).1.1
        (DocEfs.save_document ⟨[]⟩ wFs "g".data "saveDocument".data "1".data
          c6Params "id-1".data "T0".data false).1.2
        "g".data "getDocument".data "1".data
        [⟨"documentId".data, "id-1".data⟩]
      = .ok (create_response "g".data "getDocument".data "1".data
          (DocEfs.foundBody (DocEfs.efsSavedItem c6Params "id-1".data "T0".data)
            (.binary [105, 183, 29]))) ∧
    DocEfs.filePreview (.binary [105, 183, 29])
      = "[Binary file - cannot preview]".data ∧
    ¬ "[Binary file - cannot preview]".data <+: "abcd".data := by
  refine ⟨rfl, rfl, rfl, rfl, by decide⟩

/-- C10 (amended): for every successful filesystem-backend save, the content
file is written at the location denoted by the pathlib join of the mount
root, the generated documentId, and the caller-supplied documentName (no
sanitization beyond pathlib's own normalization, which drops `"."`
components and lets an absolute documentName replace the whole prefix), and
the record's filePath field equals that joined path rendered as a string;
the file lies inside the per-document directory WHENEVER documentName
contains no path separator and no parent-directory component — but not only
then (a name such as `"./a"` contains a separator yet still lands inside). -/
theorem c10_path_amended (meta : DocEfs.MetaState) (fs : DocEfs.FsState)
    (ag fn mv : List Char) (params : List Param) (id t name content : List Char)
    (hn : getParam params "documentName".data = some name) (hne : name ≠ [])
    (hc : getParam params "documentContent".data = some content)
    (hce : content ≠ [])
    (hids : '/' ∉ id) (hidn : id ≠ []) (hidd : id ≠ ".".data)
    (hidd2 : id ≠ "..".data)
    (hns : '/' ∉ name) (hnd : name ≠ ".".data) (hnd2 : name ≠ "..".data)
    (hm : ∀ p ∈ DocEfs.mountPrefixes, p ∈ fs.dirs)
    (hdd : ∀ d ∈ fs.dirs, ¬ DocEfs.mountPath.comps ++ [id] <+: d) :
    (DocEfs.save_document meta fs ag fn mv params id t false).2
        = .ok (create_response ag fn mv
            ("Document \"".data ++ name ++
              "\" saved successfully with ID: ".data ++ id)) ∧
      ((DocEfs.save_document meta fs ag fn mv params id t false).1.2.fileAt
          (DocEfs.resolveComps (DocEfs.efsFilePath id name).comps))
        = some (DocEfs.efsFileData content) ∧
      (DocEfs.efsSavedItem params id t).filePath
        = DocEfs.renderPath (DocEfs.efsFilePath id name) ∧
      DocEfs.getItem (DocEfs.save_document meta fs ag fn mv params id t
          false).1.1 id = some (DocEfs.efsSavedItem params id t) ∧
      DocEfs.resolveComps (DocEfs.efsFilePath id name).comps
        = DocEfs.resolveComps (DocEfs.efsDocDir id).comps ++ [name] := by
  have hidp := DocEfs.parsePath_simple id hids hidn hidd
  have hnamep := DocEfs.parsePath_simple name hns hne hnd
  have hdirfresh : DocEfs.mountPath.comps ++ [id] ∉ fs.dirs := by
    intro hmem
    exact hdd _ hmem (List.prefix_refl _)
  have htfresh : DocEfs.mountPath.comps ++ [id, name] ∉ fs.dirs := by
    intro hmem
    exact hdd _ hmem ⟨[name], by simp⟩
  have hopen := DocEfs.efs_canOpenWrite fs id name hidp hidd2 hnamep hnd2
    hm hdirfresh htfresh
  have hsave := DocEfs.efs_save_eq meta fs ag fn mv params id t name content
    hn hne hc hce hopen
  refine ⟨by rw [hsave], ?_, efsSavedItem_filePath params id t name hn, ?_, ?_⟩
  · rw [hsave]
    exact DocEfs.fileAt_writeFile _ _ _
  · rw [hsave]
    have h := DocEfs.efs_getItem_putItem meta (DocEfs.efsSavedItem params id t)
    rw [efsSavedItem_documentId] at h
    exact h
  · rw [DocEfs.efsFilePath_resolved id name hidp hidd2 hnamep hnd2,
      DocEfs.efsDocDir_resolved id hidp hidd2]
    simp

/-- Witness for C10: a concrete successful save of `"Hi, Bob."` as
`"a.txt"`. -/
theorem c10_path_witness :
    ('/' ∉ "a.txt".data) ∧
    ((DocEfs.save_document ⟨[]⟩ wFs "g".data "saveDocument".data "1".data
        wParams "id-1".data "T0".data false).2
        = .ok (create_response "g".data "saveDocument".data "1".data
            ("Document \"".data ++ "a.txt".data ++
              "\" saved successfully with ID: ".data ++ "id-1".data)) ∧
      ((DocEfs.save_document ⟨[]⟩ wFs "g".data "saveDocument".data "1".data
          wParams "id-1".data "T0".data false).1.2.fileAt
          (DocEfs.resolveComps
            (DocEfs.efsFilePath "id-1".data "a.txt".data).comps))
        = some (DocEfs.efsFileData "Hi, Bob.".data) ∧
      (DocEfs.efsSavedItem wParams "id-1".data "T0".data).filePath
        = DocEfs.renderPath (DocEfs.efsFilePath "id-1".data "a.txt".data) ∧
      DocEfs.getItem (DocEfs.save_document ⟨[]⟩ wFs "g".data
          "saveDocument".data "1".data wParams "id-1".data "T0".data
          false).1.1 "id-1".data
        = some (DocEfs.efsSavedItem wParams "id-1".data "T0".data) ∧
      DocEfs.resolveComps (DocEfs.efsFilePath "id-1".data "a.txt".data).comps
        = DocEfs.resolveComps (DocEfs.efsDocDir "id-1".data).comps ++
            ["a.txt".data]) :=
  ⟨by decide,
   c10_path_amended ⟨[]⟩ wFs "g".data "saveDocument".data "1".data wParams
     "id-1".data "T0".data "a.txt".data "Hi, Bob.".data rfl (by decide) rfl
     (by decide) (by decide) (by decide) (by decide) (by decide) (by decide)
     (by decide) (by decide) (by decide) (by decide)⟩

/-- C10, counterexample: the name `"./a"` contains a path separator, yet the
save succeeds and the file lands inside the per-document directory (pathlib
drops the `"."` component), refuting the claim's "only when documentName
contains no path separators" direction; the stored filePath is the
normalized `"/mnt/efs/legal-documents/id1/a"`, not the verbatim
concatenation with `"./a"`. -/
theorem c10_path_counterexample :
    ('/' ∈ "./a".data) ∧
    (DocEfs.save_document ⟨[]⟩ wFs "g".data "saveDocument".data "1".data
        c10Params "id1".data "T0".data false).2
      = .ok (create_response "g".data "saveDocument".data "1".data
          ("Document \"".data ++ "./a".data ++
            "\" saved successfully with ID: ".data ++ "id1".data)) ∧
    ((DocEfs.save_document ⟨[]⟩ wFs "g".data "saveDocument".data "1".data
        c10Params "id1".data "T0".data false).1.2.fileAt
        (DocEfs.mountPath.comps ++ ["id1".data, "a".data]))
      = some (.text "Hi, Bob.".data) ∧
    DocEfs.resolveComps (DocEfs.efsFilePath "id1".data "./a".data).comps
      = DocEfs.resolveComps (DocEfs.efsDocDir "id1".data).comps ++
          ["a".data] ∧
    (DocEfs.efsSavedItem c10Params "id1".data "T0".data).filePath
      = "/mnt/efs/legal-documents/id1/a".data ∧
    (DocEfs.efsSavedItem c10Params "id1".data "T0".data).filePath
      ≠ "/mnt/efs/legal-documents/id1/./a".data := by
  refine ⟨by decide, rfl, rfl, rfl, rfl, by decide⟩

/-- C7, counterexample: a validation failure (save with no parameters) on the
inline backend returns status 500, not the 400 the claim requires for
validation failures. -/
theorem c7_error_status_counterexample :
    (DocInline.lambda_handler ⟨[]⟩ c7SaveEvent "id".data "T0".data).2
      = .httpError 500 ("Internal Server Error: ".data ++
          "Document name is required".data) ∧
    (500 : Nat) ≠ 400 := by
  exact ⟨rfl, by decide⟩

end LegalDoc

namespace LegalDoc
open DocInline

/-- C1, counterexample: saving 350,001 ASCII bytes on the inline backend
truncates the content to 350,000 bytes plus the 60-byte marker (stored byte
length 350,060) yet persists `contentSize = 350001`, the pre-truncation
length — so the size field does not equal the stored byte length. -/
theorem c1_size_field_counterexample :
    (DocInline.save_document ⟨[]⟩ "g".data "saveDocument".data "1".data
        c1Params "id-1".data "T0".data).1.items
      = [savedItem c1Params "id-1".data "T0".data] ∧
    (savedItem c1Params "id-1".data "T0".data).contentSize = 350001 ∧
    utf8Len (savedItem c1Params "id-1".data "T0".data).documentContent
      = 350060 ∧
    (savedItem c1Params "id-1".data "T0".data).contentSize ≠
      utf8Len (savedItem c1Params "id-1".data "T0".data).documentContent := by
  have hc : getParam c1Params "documentContent".data
      = some (List.replicate 350001 'a') := by rfl
  have hitems :
      (DocInline.save_document ⟨[]⟩ "g".data "saveDocument".data "1".data
        c1Params "id-1".data "T0".data).1.items
      = [savedItem c1Params "id-1".data "T0".data] := by
    rw [save_document_eq ⟨[]⟩ "g".data "saveDocument".data "1".data c1Params
      "id-1".data "T0".data (by rfl) (by rfl)]
    rfl
  have hsz : (savedItem c1Params "id-1".data "T0".data).contentSize
      = 350001 := by
    rw [savedItem_contentSize c1Params _ _ _ hc, utf8Len_ascii_replicate]
  have hstored :
      utf8Len (savedItem c1Params "id-1".data "T0".data).documentContent
        = 350060 := by
    rw [savedItem_content c1Params _ _ _ hc, utf8Len_ascii_replicate,
      if_pos (by norm_num), utf8Len_append, List.take_replicate,
      utf8Len_ascii_replicate, utf8Len_truncMarker]
    norm_num
  exact ⟨hitems, hsz, hstored, by rw [hsz, hstored]; norm_num⟩

end LegalDoc
